import Mathlib

/-!
Verification of the retail_insights_agent repository (Python) against its
natural-language specification.

Shallow embedding conventions:
* pandas DataFrames are modelled as a list of named columns over an abstract
  cell type (`null` models NaN/None, `num` a numeric value, `str` a string);
  a well-formedness field records that every column has `nrows` cells.
* Python floats are modelled as rationals (`Rat`); comparisons against a
  standard deviation are expressed with squared quantities so that the whole
  development stays inside `Rat` (|x| > 5·std  ↔  x² > 25·var for var ≥ 0).
* Python dicts (the shared agent state, confidence-score dicts) are modelled
  as association lists `List (String × Value)` with last-write-wins update.
* Exceptions are modelled with `Except`; external effects (SQL execution,
  LLM/HTTP calls) are parameters of the embedded functions.
-/

/-- Contiguous-sublist test on character lists. -/
def charsContain (pat : List Char) : List Char → Bool
  | [] => pat.isEmpty
  | c :: rest => pat.isPrefixOf (c :: rest) || charsContain pat rest

/-- Python's substring test `pat in s`. -/
def strContains (s pat : String) : Bool :=
  charsContain pat.toList s.toList

/-- Python's `str.lower()` (ASCII case folding, character by character). -/
def strToLower (s : String) : String := String.mk (s.toList.map Char.toLower)

/-- A single cell of a DataFrame: NaN/None, a numeric value, or a string. -/
inductive Cell where
  | null : Cell
  | num (v : Rat) : Cell
  | str (s : String) : Cell
deriving DecidableEq, Repr

/-- A DataFrame column: its name, whether its dtype is numeric
(`select_dtypes(include=['number'])` selects it), and its cells. -/
structure Col where
  name : String
  isNumeric : Bool
  cells : List Cell
deriving DecidableEq, Repr

/-- A pandas DataFrame: a row count and a list of columns, each holding
exactly `nrows` cells. -/
structure DataFrame where
  nrows : Nat
  cols : List Col
  wf : cols.all (fun c => c.cells.length == nrows) = true
deriving Repr

namespace DataFrame

def ncols (df : DataFrame) : Nat := df.cols.length

def colNames (df : DataFrame) : List String := df.cols.map Col.name

/-- pandas `df.empty`: true when either axis has length 0. -/
def isEmptyDF (df : DataFrame) : Bool := df.nrows == 0 || df.cols.isEmpty

end DataFrame

namespace Col

/-- Number of null cells in a column (`df[col].isnull().sum()`). -/
def nullCount (c : Col) : Nat := (c.cells.filter (fun x => x == Cell.null)).length

/-- The numeric values of a column with nulls dropped (`df[col].dropna()`
for a numeric column). -/
def numVals (c : Col) : List Rat :=
  c.cells.filterMap (fun x => match x with | Cell.num v => some v | _ => none)

/-- `(df[col] < 0).sum()`: NaN compares false, so only numeric values count. -/
def negCount (c : Col) : Nat := (c.numVals.filter (fun v => decide (v < 0))).length

end Col

/-- `df.isnull().sum().sum()`: total null cells over the whole frame. -/
def totalNulls (df : DataFrame) : Nat := (df.cols.map Col.nullCount).sum

/-- The numeric columns, in order (`df.select_dtypes(include=['number']).columns`). -/
def numericCols (df : DataFrame) : List Col := df.cols.filter Col.isNumeric

/-- Mean of a list of rationals (pandas `mean()` over the non-null values). -/
def listMean (vals : List Rat) : Rat := vals.sum / (vals.length : Rat)

/-- Sample variance with ddof = 1 (the square of pandas `std()`). -/
def sampleVar (vals : List Rat) : Rat :=
  let m := listMean vals
  (vals.map (fun v => (v - m) ^ 2)).sum / ((vals.length : Rat) - 1)

/-- Minimum of a list of rationals (pandas `min()` over non-null values). -/
def listMin (vals : List Rat) : Rat :=
  match vals with
  | [] => 0
  | v :: rest => rest.foldl min v

/-- Maximum of a list of rationals (pandas `max()` over non-null values). -/
def listMax (vals : List Rat) : Rat :=
  match vals with
  | [] => 0
  | v :: rest => rest.foldl max v

namespace ConfidenceScorer

/-- `ConfidenceScorer._score_data_quality`.  The outlier test
`(df[col] - mean).abs() > 5 * std` (with `std > 0`) is expressed with squared
quantities to stay in `Rat`. -/
def score_data_quality (df : DataFrame) : Rat :=
  let nullRatio : Rat := (totalNulls df : Rat) / ((df.nrows : Rat) * (df.ncols : Rat))
  let s0 : Rat := 1 - nullRatio * 0.5
  let s1 : Rat := (numericCols df).foldl (fun s c =>
    let s := if ["revenue", "quantity", "amount", "orders"].contains c.name
                && c.numVals.any (fun v => decide (v < 0))
             then s - 0.1 else s
    let vals := c.numVals
    if vals.length > 10 then
      let m := listMean vals
      let varc := sampleVar vals
      if varc > 0 then
        let outliers := (vals.filter (fun v => decide ((v - m) ^ 2 > 25 * varc))).length
        if outliers > 0 then s - 0.05 * ((min outliers 5 : Nat) : Rat) else s
      else s
    else s) s0
  max 0 (min 1 s1)

/-- `ConfidenceScorer._score_completeness`. -/
def score_completeness (df : DataFrame) : Rat :=
  if df.isEmptyDF then 0
  else
    let nonNullRatio : Rat :=
      1 - (totalNulls df : Rat) / ((df.nrows : Rat) * (df.ncols : Rat))
    let lowerNames := df.colNames.map strToLower
    let expected := ["revenue", "orders", "count", "total", "sum", "avg"]
    let hasExpected := (expected.filter (fun e => lowerNames.any (fun c => strContains c e))).length
    let expectedBonus : Rat := min ((hasExpected : Rat) * 0.1) 0.2
    min 1 (nonNullRatio + expectedBonus)

/-- `ConfidenceScorer._score_consistency`.  The `dtype == 'object'` test can
never fire on a column selected by `select_dtypes(include=['number'])`; it is
embedded as the (always-false) test `c.isNumeric = false`. -/
def score_consistency (df : DataFrame) : Rat :=
  let s1 : Rat := (numericCols df).foldl (fun s c =>
    let s := if c.isNumeric == false then s - 0.1 else s
    let vals := c.numVals
    if vals.length > 0 then
      let mn := listMin vals
      let mx := listMax vals
      if mx > 0 ∧ mn > 0 then
        if mx / mn > 10000 then s - 0.1 else s
      else s
    else s) 1
  max 0 (min 1 s1)

/-- The score dict returned for a `None` or empty DataFrame. -/
def emptyScores : List (String × Rat) :=
  [("data_quality", 0.5), ("completeness", 0), ("consistency", 1), ("overall", 0.3)]

/-- `ConfidenceScorer.score`: the confidence-score dict for a query result. -/
def score (df : Option DataFrame) : List (String × Rat) :=
  match df with
  | none => emptyScores
  | some df =>
    if df.isEmptyDF then emptyScores
    else
      let data_quality := score_data_quality df
      let completeness := score_completeness df
      let consistency := score_consistency df
      let overall := data_quality * 0.4 + completeness * 0.3 + consistency * 0.3
      [("data_quality", data_quality), ("completeness", completeness),
       ("consistency", consistency), ("overall", overall)]

end ConfidenceScorer

/-- `ValidationResult` (dataclass in validation_agent.py). -/
structure ValidationResult where
  passed : Bool
  confidence : Rat
  issues : List String
  warnings : List String
  data_quality_score : Rat
  completeness_score : Rat
  consistency_score : Rat
deriving Repr

/-- Overall null percentage `total_nulls / (len(df) * len(df.columns)) * 100`. -/
def nullPct (df : DataFrame) : Rat :=
  (totalNulls df : Rat) / ((df.nrows : Rat) * (df.ncols : Rat)) * 100

/-- Row `i` of a DataFrame as the tuple of its cells, in column order. -/
def rowAt (df : DataFrame) (i : Nat) : List Cell :=
  df.cols.map (fun c => c.cells.getD i Cell.null)

/-- `df.duplicated().sum()`: rows equal to some earlier row. -/
def dupCount (df : DataFrame) : Nat :=
  ((List.range df.nrows).filter
    (fun i => (List.range i).any (fun j => rowAt df i == rowAt df j))).length

/-- pandas linear-interpolation quantile over the non-null values. -/
def quantileQ (vals : List Rat) (p : Rat) : Rat :=
  let sorted := vals.mergeSort (fun a b => decide (a ≤ b))
  match sorted with
  | [] => 0
  | v0 :: _ =>
    let n := sorted.length
    let pos : Rat := p * ((n : Rat) - 1)
    let l : Nat := (Rat.floor pos).toNat
    let frac : Rat := pos - (l : Rat)
    let x0 := sorted.getD l v0
    let x1 := sorted.getD (l + 1) x0
    x0 + (x1 - x0) * frac

namespace ValidationAgent

/-- The lowercased column-name lists of check 5 of
`ValidationAgent._comprehensive_validation`. -/
def negCheckCols : List String :=
  ["revenue", "quantity", "unit_price", "amount", "orders", "count"]

def negIssueCols : List String := ["revenue", "quantity", "amount"]

def categoricalCols : List String :=
  ["region", "category", "product", "month", "quarter", "state", "status"]

def suspiciousPatterns : List String := ["drop", "delete", ";--", "exec"]

/-- `validation_rules["max_rows"]`. -/
def maxRows : Nat := 1000000

/-- Check 1 of `_comprehensive_validation`: row count bounds. -/
def check1_issues (df : DataFrame) : List String :=
  if df.nrows > maxRows then ["Too many rows: " ++ toString df.nrows] else []

/-- Check 2: empty result handling. -/
def check2_warnings (df : DataFrame) : List String :=
  if df.nrows == 0 then ["Query returned no results - this might be expected"] else []

/-- Check 3: data type validation. -/
def check3_warnings (df : DataFrame) : List String :=
  if (numericCols df).length == 0
      && !(categoricalCols.any (fun c => df.colNames.contains c))
  then ["No numeric columns found in result"] else []

/-- Check 4, issue part: overall null percentage above 50%. -/
def check4_issues (df : DataFrame) : List String :=
  if totalNulls df > 0 && decide (nullPct df > 50)
  then ["High null ratio: " ++ toString (nullPct df)] else []

/-- Check 4, warning part: moderate null percentage (10% < pct ≤ 50%). -/
def check4_warnings (df : DataFrame) : List String :=
  if totalNulls df > 0 && !(decide (nullPct df > 50)) && decide (nullPct df > 10)
  then ["Null values in columns: "
          ++ toString ((df.cols.filter (fun c => c.nullCount > 0)).map Col.name)]
  else []

/-- Check 5: the numeric columns in the watched name list holding a negative value. -/
def check5_negCols (df : DataFrame) : List Col :=
  (numericCols df).filter
    (fun c => negCheckCols.contains (strToLower c.name) && c.negCount > 0)

/-- Check 5, issue part: negative values in revenue/quantity/amount columns. -/
def check5_issues (df : DataFrame) : List String :=
  ((check5_negCols df).filter (fun c => negIssueCols.contains (strToLower c.name))).map
    (fun c => "Negative values in " ++ c.name ++ ": " ++ toString c.negCount)

/-- Check 5, warning part: negative values in unit_price/orders/count columns. -/
def check5_warnings (df : DataFrame) : List String :=
  ((check5_negCols df).filter (fun c => !(negIssueCols.contains (strToLower c.name)))).map
    (fun c => "Negative values in " ++ c.name ++ ": " ++ toString c.negCount)

/-- Check 6: duplicate detection (warning only, above a 50% duplicate ratio). -/
def check6_warnings (df : DataFrame) : List String :=
  if df.nrows > 0 && dupCount df > 0
      && decide ((dupCount df : Rat) / (df.nrows : Rat) * 100 > 50)
  then ["High duplicate ratio: " ++ toString (dupCount df)] else []

/-- Check 7: outlier detection with the 3 * IQR rule (warning only). -/
def check7_warnings (df : DataFrame) : List String :=
  ((numericCols df).filter (fun c =>
    let vals := c.numVals
    vals.length > 10 &&
      (let q1 := quantileQ vals 0.25
       let q3 := quantileQ vals 0.75
       let iqr := q3 - q1
       decide (iqr > 0) &&
         decide (((vals.filter (fun v =>
            decide (v < q1 - 3 * iqr) || decide (v > q3 + 3 * iqr))).length : Rat)
           > (df.nrows : Rat) * 0.1)))).map
    (fun c => "Many outliers detected in " ++ c.name)

/-- Check 8: SQL injection patterns in column names. -/
def check8_issues (df : DataFrame) : List String :=
  (df.cols.filter (fun c =>
      suspiciousPatterns.any (fun p => strContains (strToLower c.name) p))).map
    (fun c => "Suspicious column name detected: " ++ c.name)

/-- All issues appended in source order. -/
def issuesOf (df : DataFrame) : List String :=
  check1_issues df ++ check4_issues df ++ check5_issues df ++ check8_issues df

/-- All warnings appended in source order. -/
def warningsOf (df : DataFrame) : List String :=
  check2_warnings df ++ check3_warnings df ++ check4_warnings df
    ++ check5_warnings df ++ check6_warnings df ++ check7_warnings df

/-- `ValidationAgent._comprehensive_validation`: the fixed battery of checks.
Issue and warning message texts follow the source; Python's float formatting
(e.g. `:.1f`) is not reproduced, only which messages are appended. -/
def comprehensive_validation (df : DataFrame) : ValidationResult :=
  let issues := issuesOf df
  let warnings := warningsOf df
  let data_quality_score : Rat :=
    1 - (issues.length : Rat) * 0.2 - (warnings.length : Rat) * 0.05
  let completeness_score : Rat :=
    1 - (totalNulls df : Rat) / ((max (df.nrows * df.ncols) 1 : Nat) : Rat)
  let consistency_score : Rat := if issues.length == 0 then 1 else 0.5
  { passed := issues.length == 0
    confidence := max 0 data_quality_score
    issues := issues
    warnings := warnings
    data_quality_score := max 0 data_quality_score
    completeness_score := max 0 completeness_score
    consistency_score := consistency_score }

end ValidationAgent

/-- `df.head(n)`: the first `n` rows. -/
def dfHead (df : DataFrame) (n : Nat) : DataFrame where
  nrows := min n df.nrows
  cols := df.cols.map (fun c => { name := c.name, isNumeric := c.isNumeric, cells := c.cells.take n })
  wf := by
    have h := df.wf
    simp only [List.all_map, List.all_eq_true, Function.comp] at *
    intro c hc
    have h2 := h c hc
    simp only [beq_iff_eq] at h2
    simp [List.length_take, h2]

/-- `df.to_dict('records')`: one association list per row, in column order. -/
def dfRecords (df : DataFrame) : List (List (String × Cell)) :=
  (List.range df.nrows).map
    (fun i => df.cols.map (fun c => (c.name, c.cells.getD i Cell.null)))

/-- `df[names]`: column selection, in the order of `names`. -/
def selectCols (df : DataFrame) (names : List String) : DataFrame where
  nrows := df.nrows
  cols := names.filterMap (fun n => df.cols.find? (fun c => c.name == n))
  wf := by
    have h := df.wf
    simp only [List.all_eq_true] at *
    intro c hc
    obtain ⟨n, _, hf⟩ := List.mem_filterMap.mp hc
    exact h c (List.mem_of_find?_eq_some hf)

/-- Modelled from the spec: the structured query intent produced by the
query-resolution agent (module `agents/query_agent.py`, not present under
`src/`); only the fields the in-src agents access are modelled: the generated
SQL query and its explanation. -/
structure QueryIntent where
  sql_query : String
  explanation : String
deriving DecidableEq, Repr

/-- `DataExtractionAgent._generate_summary`: brief textual result summary.
Python float formatting (`:.2f`) is rendered as plain rational text. -/
def generate_summary (df : DataFrame) : String :=
  if df.isEmptyDF then "No data found."
  else
    let base := "Retrieved " ++ toString df.nrows ++ " records with "
      ++ toString df.ncols ++ " columns.\n"
    if (numericCols df).length > 0 then
      base ++ "Numeric summaries:\n" ++ String.join
        (((numericCols df).take 5).map (fun c =>
          "  - " ++ c.name ++ ": min=" ++ toString (listMin c.numVals)
            ++ ", max=" ++ toString (listMax c.numVals)
            ++ ", mean=" ++ toString (listMean c.numVals) ++ "\n"))
    else base

/-- The `result_data` dict built by `DataExtractionAgent.extract_data`. -/
structure QueryResult where
  dataframe : Option DataFrame
  row_count : Nat
  columns : List String
  data : List (List (String × Cell))
  summary : String

/-- A value stored in the shared agent-state dict. `vnat` stands for any
other Python object a caller may have put into the state. -/
inductive Value where
  | vnone
  | vstr (s : String)
  | vbool (b : Bool)
  | vnat (n : Nat)
  | vqres (r : QueryResult)
  | vscores (d : List (String × Rat))
  | vstrs (l : List String)
  | vintent (q : QueryIntent)

/-- The shared agent state: a Python dict keyed by strings. -/
def StateD : Type := List (String × Value)

/-- `state.get(k)`. -/
def getVal (s : StateD) (k : String) : Option Value :=
  match s with
  | [] => none
  | (k', v) :: rest => if k' = k then some v else getVal rest k

/-- `k in state`. -/
def hasKey (s : StateD) (k : String) : Bool :=
  (getVal s k).isSome

/-- Insert-or-replace of one key, as a dict literal entry does. -/
def setKey (s : StateD) (k : String) (v : Value) : StateD :=
  match s with
  | [] => [(k, v)]
  | (k', v') :: rest => if k' = k then (k, v) :: rest else (k', v') :: setKey rest k v

/-- `{**state, k1: v1, k2: v2, ...}`: merge the listed entries into the state,
later entries winning. -/
def updateKeys (s : StateD) (kvs : List (String × Value)) : StateD :=
  kvs.foldl (fun s kv => setKey s kv.1 kv.2) s

/-- Python truthiness of a state value (`if not x`), `none` meaning the key
is absent. -/
def truthy : Option Value → Bool
  | none => false
  | some Value.vnone => false
  | some (Value.vstr s) => !(s == "")
  | some (Value.vbool b) => b
  | some (Value.vnat n) => !(n == 0)
  | some (Value.vqres _) => true
  | some (Value.vscores d) => !d.isEmpty
  | some (Value.vstrs l) => !l.isEmpty
  | some (Value.vintent _) => true

/-- Python `str()` of a state value, as interpolated into messages/prompts
(object reprs are abstracted). -/
def valueAsString : Option Value → String
  | none => "None"
  | some Value.vnone => "None"
  | some (Value.vstr s) => s
  | some (Value.vbool b) => if b then "True" else "False"
  | some (Value.vnat n) => toString n
  | some (Value.vqres _) => "<query result>"
  | some (Value.vscores _) => "<scores>"
  | some (Value.vstrs l) => toString l
  | some (Value.vintent _) => "<intent>"

namespace DataExtractionAgent

/-- The `result_data` dict of `DataExtractionAgent.extract_data`. -/
def mkQueryResult (df : DataFrame) : QueryResult where
  dataframe := some df
  row_count := df.nrows
  columns := df.colNames
  data := if df.nrows ≤ 100 then dfRecords df else dfRecords (dfHead df 100)
  summary := generate_summary df

/-- `DataExtractionAgent.extract_data`.  The data layer's `execute_query` is
the parameter `execQ`; a raised exception is its `error` case.  A truthy
`query_intent` state entry that is not an intent object makes the Python
attribute access `query_intent.sql_query` raise, which the enclosing
`except` turns into the error return: that is the last match arm. -/
def extract_data (execQ : String → Except String DataFrame) (state : StateD) : StateD :=
  let q := getVal state "query_intent"
  if truthy q = false then
    updateKeys state [("error", Value.vstr "No query intent provided"),
                      ("query_result", Value.vnone)]
  else
    match q with
    | some (Value.vintent qi) =>
      match execQ qi.sql_query with
      | Except.ok df =>
        updateKeys state [("query_result", Value.vqres (mkQueryResult df)),
                          ("error", Value.vnone)]
      | Except.error e =>
        updateKeys state [("query_result", Value.vnone),
                          ("error", Value.vstr ("Data extraction error: " ++ e))]
    | _ =>
      updateKeys state [("query_result", Value.vnone),
                        ("error", Value.vstr "Data extraction error: attribute error")]

end DataExtractionAgent

namespace ValidationAgent

/-- The degenerate score dict `{"overall": 0.0}`. -/
def zeroScores : List (String × Rat) := [("overall", 0)]

/-- `ValidationAgent.validate`.  The `try`/`except` wrapper is modelled by
the parameter `exc`: `some e` means an unexpected exception `e` interrupts
the body (Python would then run the handler), `none` means the body runs to
completion.  A truthy `query_result` entry that is not a result dict makes
`query_result.get(...)` raise, landing in the same handler: last match arm. -/
def validate (exc : Option String) (state : StateD) : StateD :=
  match exc with
  | some e =>
    updateKeys state [("validation_passed", Value.vbool false),
                      ("confidence_scores", Value.vscores zeroScores),
                      ("error", Value.vstr ("Validation error: " ++ e))]
  | none =>
    let qrv := getVal state "query_result"
    if truthy qrv = false then
      updateKeys state [("validation_passed", Value.vbool false),
                        ("confidence_scores", Value.vscores zeroScores),
                        ("error", Value.vstr "No query result to validate")]
    else
      match qrv with
      | some (Value.vqres qr) =>
        if truthy (getVal state "error") then
          updateKeys state [("validation_passed", Value.vbool false),
                            ("confidence_scores", Value.vscores zeroScores)]
        else
          match qr.dataframe with
          | none =>
            updateKeys state [("validation_passed", Value.vbool false),
                              ("confidence_scores", Value.vscores zeroScores),
                              ("error", Value.vstr "No dataframe in query result")]
          | some df =>
            let vr := comprehensive_validation df
            let cs := ConfidenceScorer.score (some df)
            if vr.passed = false then
              updateKeys state
                [("validation_passed", Value.vbool false),
                 ("confidence_scores", Value.vscores cs),
                 ("validation_warnings", Value.vstrs vr.warnings),
                 ("error", Value.vstr ("Validation failed: "
                    ++ String.intercalate "; " vr.issues))]
            else
              updateKeys state
                [("validation_passed", Value.vbool true),
                 ("confidence_scores", Value.vscores cs),
                 ("validation_warnings", Value.vstrs vr.warnings),
                 ("error", Value.vnone)]
      | _ =>
        updateKeys state [("validation_passed", Value.vbool false),
                          ("confidence_scores", Value.vscores zeroScores),
                          ("error", Value.vstr "Validation error: attribute error")]

end ValidationAgent

namespace ResponseAgent

/-- The important-column list of `ResponseAgent._format_results`. -/
def importantCols : List String :=
  ["order_id", "date", "category", "product", "qty", "amount",
   "status", "fulfilled_by", "ship_city", "ship_state",
   "size", "total", "sales", "revenue", "quantity", "price"]

/-- The structured content of the text summary `_format_results` builds:
which columns are named in the header line, whether descriptive statistics
are included, and exactly which data rows are serialized.  String layout
details of `to_string` (padding, the `max_cols` display ellipsis) are
abstracted away; the row multiset rendered is kept exact. -/
structure FormattedSummary where
  noData : Bool
  recordCount : Nat
  listedCols : List String
  moreColsNote : Bool
  statsCols : List String
  serializedRows : List (List (String × Cell))
  truncNote : Bool

/-- The summary for a `None` or empty DataFrame. -/
def noDataSummary : FormattedSummary where
  noData := true
  recordCount := 0
  listedCols := []
  moreColsNote := false
  statsCols := []
  serializedRows := []
  truncNote := false

/-- The `available_cols` computed by `_format_results`: the important columns
present in the frame, or the first 10 columns if none is present. -/
def availableCols (df : DataFrame) : List String :=
  let av := importantCols.filter (fun c => df.colNames.contains c)
  if av.isEmpty then df.colNames.take 10 else av

/-- `ResponseAgent._format_results`. -/
def format_results (qr : QueryResult) : FormattedSummary :=
  match qr.dataframe with
  | none => noDataSummary
  | some df =>
    if df.isEmptyDF then noDataSummary
    else
      let available := availableCols df
      let dfSub := if available.length < df.ncols then selectCols df available else df
      let listed := df.colNames.take 15
      let more := df.ncols > 15
      if df.nrows ≤ 10 then
        { noData := false, recordCount := df.nrows, listedCols := listed,
          moreColsNote := more, statsCols := [],
          serializedRows := dfRecords dfSub, truncNote := false }
      else
        { noData := false, recordCount := df.nrows, listedCols := listed,
          moreColsNote := more, statsCols := (numericCols df).map Col.name,
          serializedRows := dfRecords (dfHead dfSub 5), truncNote := true }

/-- Plain-text rendering of one cell for the serialized summary. -/
def renderCell : Cell → String
  | Cell.null => "NaN"
  | Cell.num v => toString v
  | Cell.str s => s

/-- Plain-text rendering of the structured summary, standing for the string
`_format_results` returns. -/
def renderSummary (fs : FormattedSummary) : String :=
  if fs.noData then "No data found matching the query criteria."
  else
    "Results: " ++ toString fs.recordCount ++ " records\n"
      ++ "Columns: " ++ String.intercalate ", " fs.listedCols
      ++ (if fs.moreColsNote then "... (+ more)" else "") ++ "\n\n"
      ++ (if fs.statsCols.isEmpty then ""
          else "Summary Statistics:\n" ++ String.intercalate ", " fs.statsCols ++ "\n\n")
      ++ String.join (fs.serializedRows.map (fun row =>
           String.intercalate " " (row.map (fun kv => renderCell kv.2)) ++ "\n"))
      ++ (if fs.truncNote then "\n(Showing 5 of " ++ toString fs.recordCount ++ " total records)" else "")

/-- `create_prompt_template` from llm_utils.py. -/
def create_prompt_template (role instructions : String) : String :=
  "You are a " ++ role ++ " for a Retail Insights Assistant.\n\n"
    ++ instructions
    ++ "\n\nBe precise, analytical, and focus on providing actionable insights.\n"

/-- The system instructions of `ResponseAgent.generate_response` (abridged to
their first line; the text takes no part in any control flow). -/
def responseInstructions : String :=
  "You provide clear, insightful answers to business questions about retail sales data."

/-- The filled user message of the response prompt. -/
def userMessage (question explanation data_summary : String) : String :=
  "\nOriginal Question: " ++ question
    ++ "\n\nQuery Explanation: " ++ explanation
    ++ "\n\nData Retrieved:\n" ++ data_summary
    ++ "\n\nPlease provide a clear, business-focused answer to the original question based on this data.\n"

/-- `ResponseAgent.generate_response`.  The LLM chain invocation is the
parameter `llm` (system message, user message → content), its `error` case a
raised exception caught by the enclosing `except`.  A truthy `query_result`
or `query_intent` entry of the wrong shape makes the Python attribute access
raise, landing in the same handler: last match arm. -/
def generate_response (llm : String → String → Except String String) (state : StateD) : StateD :=
  if truthy (getVal state "validation_passed") = false then
    let error := match getVal state "error" with
      | none => "Unknown error"
      | some v => valueAsString (some v)
    updateKeys state [("final_answer",
      Value.vstr ("I encountered an issue processing your query: " ++ error))]
  else
    let qrv := getVal state "query_result"
    let qiv := getVal state "query_intent"
    if truthy qrv = false || truthy qiv = false then
      updateKeys state [("final_answer",
        Value.vstr "I couldn't process your query. Please try rephrasing your question.")]
    else
      match qrv, qiv with
      | some (Value.vqres qr), some (Value.vintent qi) =>
        let data_summary := renderSummary (format_results qr)
        let sys := create_prompt_template "Retail Analytics Response Specialist" responseInstructions
        let user := userMessage (valueAsString (getVal state "question")) qi.explanation data_summary
        match llm sys user with
        | Except.ok content =>
          updateKeys state [("final_answer", Value.vstr content)]
        | Except.error e =>
          updateKeys state [("final_answer",
            Value.vstr ("I encountered an error generating the response: Response generation error: " ++ e))]
      | _, _ =>
        updateKeys state [("final_answer",
          Value.vstr "I encountered an error generating the response: Response generation error: attribute error")]

end ResponseAgent

/-! ### LLM utility layer: Gemini fallback wrapper (llm_utils.py) -/

/-- `GEMINI_FALLBACK_MODELS` from llm_utils.py, in listed order. -/
def GEMINI_FALLBACK_MODELS : List String :=
  ["gemini-2.0-flash", "gemini-1.5-flash-latest", "gemini-1.5-pro-latest", "gemini-pro"]

namespace GeminiFallbackLLM

/-- The mutable per-instance fields of `GeminiFallbackLLM`: the configured
primary model and the model the wrapped `_llm` currently points at
(`_create_llm` keeps them in sync). -/
structure GFState where
  primary_model : String
  current_model : String
deriving DecidableEq, Repr

/-- `should_fallback` (nested in `_generate`): does an error string warrant
trying a fallback model? -/
def should_fallback (e : String) : Bool :=
  strContains e "429" || strContains e "404"
    || strContains (strToLower e) "quota" || strContains (strToLower e) "rate"
    || strContains (strToLower e) "not found" || strContains (strToLower e) "not supported"

/-- `_get_fallback_models`: the fallback models to try, excluding the
current model, deduplicated in first-seen order. -/
def get_fallback_models (current : String) : List String :=
  GEMINI_FALLBACK_MODELS.foldl
    (fun acc m => if m != current && !(acc.contains m) then acc ++ [m] else acc) []

/-- The `for fallback_model in ...` loop of `_generate`.  Each iteration
first runs `_create_llm fallback_model` (so the current model advances even
on failure), then calls the model; the second component is the final
`current_model`.  `call` maps a model name to its outcome within this
`_generate` invocation. -/
def tryFallbacks (call : String → Except String String) (origErr : String) :
    List String → String → Except String String × String
  | [], cur =>
    (Except.error ("All Gemini models exhausted. Original error: " ++ origErr), cur)
  | m :: rest, _ =>
    match call m with
    | Except.ok r => (Except.ok r, m)
    | Except.error fe =>
      if should_fallback fe then tryFallbacks call origErr rest m
      else (Except.error fe, m)

/-- `GeminiFallbackLLM._generate`: try the current model, then on a
rate-limit/quota/not-found error walk the fallback list; other errors are
re-raised.  Returns the result together with the updated instance state. -/
def generate (call : String → Except String String) (s : GFState) :
    Except String String × GFState :=
  match call s.current_model with
  | Except.ok r => (Except.ok r, s)
  | Except.error e =>
    if should_fallback e then
      let res := tryFallbacks call e (get_fallback_models s.current_model) s.current_model
      (res.1, { primary_model := s.primary_model, current_model := res.2 })
    else (Except.error e, s)

end GeminiFallbackLLM

/-! ### LLM utility layer: OpenRouter wrapper (openrouter_llm.py) -/

/-- `OPENROUTER_FALLBACK_MODELS` from openrouter_llm.py, in listed order. -/
def OPENROUTER_FALLBACK_MODELS : List String :=
  ["google/gemini-2.0-flash-exp:free",
   "meta-llama/llama-3.2-3b-instruct:free",
   "mistralai/mistral-7b-instruct:free",
   "huggingfaceh4/zephyr-7b-beta:free",
   "openchat/openchat-7b:free"]

namespace OpenRouterLLM

/-- Outcome of one `_make_request` call: a raised request exception, or an
HTTP response with its status, body text, and (for a well-formed 200
response) the `choices[0].message.content` payload. -/
inductive ReqOutcome where
  | exn (e : String)
  | resp (status : Nat) (text : String) (content : String)
deriving DecidableEq, Repr

/-- The `last_error` string recorded for a failed attempt at model `m`. -/
def orErrMsg (m : String) (o : ReqOutcome) : String :=
  match o with
  | ReqOutcome.exn e => e
  | ReqOutcome.resp status text _ =>
    if status == 429 then "Rate limited on " ++ m
    else "OpenRouter API error: " ++ toString status ++ " - " ++ text

/-- The `last_error` left behind by model `m` under request function `req`. -/
def orFailMsg (req : String → ReqOutcome) (m : String) : String :=
  orErrMsg m (req m)

/-- The content of a successful (status-200) outcome, if any. -/
def orSucc (o : ReqOutcome) : Option String :=
  match o with
  | ReqOutcome.resp status _ content => if status == 200 then some content else none
  | ReqOutcome.exn _ => none

/-- Python's f-string rendering of `last_error` (initially `None`). -/
def renderLastError : Option String → String
  | none => "None"
  | some e => e

/-- The `for model in models_to_try` loop of `OpenRouterLLM._generate`. -/
def orLoop (req : String → ReqOutcome) : List String → Option String → Except String String
  | [], last =>
    Except.error ("All models failed. Last error: " ++ renderLastError last)
  | m :: rest, _ =>
    match req m with
    | ReqOutcome.resp status text content =>
      if status == 200 then Except.ok content
      else orLoop req rest (some (orErrMsg m (ReqOutcome.resp status text content)))
    | ReqOutcome.exn e => orLoop req rest (some e)

/-- `models_to_try`: the primary model first, then the fallbacks different
from it, in listed order. -/
def modelsToTry (primary : String) : List String :=
  primary :: OPENROUTER_FALLBACK_MODELS.filter (fun m => m != primary)

/-- `OpenRouterLLM._generate` (after message conversion): walk the model
sequence until a 200 response, else raise with the last error. -/
def generate (req : String → ReqOutcome) (primary : String) : Except String String :=
  orLoop req (modelsToTry primary) none

end OpenRouterLLM

/-! ### Concrete inputs used by witnesses -/

/-- A one-row, one-column frame with a positive revenue value. -/
def dfRevenue : DataFrame where
  nrows := 1
  cols := [{ name := "revenue", isNumeric := true, cells := [Cell.num 5] }]
  wf := rfl

/-- A state holding only a question. -/
def stateQ : StateD := [("question", Value.vstr "total revenue?")]

/-- A state holding a query intent. -/
def stateIntent : StateD :=
  [("query_intent", Value.vintent { sql_query := "SELECT 1", explanation := "demo" })]

/-- A data layer that always succeeds with the one-cell revenue frame. -/
def execOkW : String → Except String DataFrame := fun _ => Except.ok dfRevenue

/-- A data layer whose query execution always raises. -/
def execErrW : String → Except String DataFrame := fun _ => Except.error "boom"

/-- A Gemini call outcome map: the primary model is rate-limited, the first
fallback answers. -/
def geminiCallW : String → Except String String := fun m =>
  if m == "gemini-2.0-flash" then Except.error "429 Resource has been exhausted"
  else if m == "gemini-1.5-flash-latest" then Except.ok "fallback answer"
  else Except.error "quota exceeded"

/-- A Gemini call outcome map for a custom primary model outside the
fallback list. -/
def geminiCallX : String → Except String String := fun m =>
  if m == "custom-model" then Except.error "429 too many requests"
  else Except.ok "hello"

/-- An OpenRouter request map: the primary model is rate-limited, the second
model in the sequence returns 200. -/
def orReqW : String → OpenRouterLLM.ReqOutcome := fun m =>
  if m == "google/gemini-2.0-flash-exp:free" then OpenRouterLLM.ReqOutcome.resp 429 "limited" ""
  else if m == "meta-llama/llama-3.2-3b-instruct:free" then OpenRouterLLM.ReqOutcome.resp 200 "ok" "answer text"
  else OpenRouterLLM.ReqOutcome.exn "unreachable"

/-! ### Helper lemmas -/

theorem clamp01_nonneg (x : Rat) : 0 ≤ max 0 (min 1 x) := le_max_left 0 (min 1 x)

theorem clamp01_le_one (x : Rat) : max 0 (min 1 x) ≤ 1 :=
  max_le (by norm_num) (min_le_left 1 x)

theorem nullCount_le_len (c : Col) : c.nullCount ≤ c.cells.length :=
  List.length_filter_le _ _

theorem sum_nullCounts_le (l : List Col) (n : Nat)
    (h : l.all (fun c => c.cells.length == n) = true) :
    (l.map Col.nullCount).sum ≤ l.length * n := by
  induction l with
  | nil => simp
  | cons c rest ih =>
    simp only [List.all_cons, Bool.and_eq_true, beq_iff_eq] at h
    have h1 : c.nullCount ≤ n := h.1 ▸ nullCount_le_len c
    have h2 := ih h.2
    simp only [List.map_cons, List.sum_cons, List.length_cons]
    calc c.nullCount + (rest.map Col.nullCount).sum ≤ n + rest.length * n := by omega
    _ = (rest.length + 1) * n := by ring

theorem totalNulls_le (df : DataFrame) : totalNulls df ≤ df.ncols * df.nrows :=
  sum_nullCounts_le df.cols df.nrows df.wf

theorem score_data_quality_bounds (df : DataFrame) :
    0 ≤ ConfidenceScorer.score_data_quality df ∧
      ConfidenceScorer.score_data_quality df ≤ 1 := by
  unfold ConfidenceScorer.score_data_quality
  exact ⟨clamp01_nonneg _, clamp01_le_one _⟩

theorem score_consistency_bounds (df : DataFrame) :
    0 ≤ ConfidenceScorer.score_consistency df ∧
      ConfidenceScorer.score_consistency df ≤ 1 := by
  unfold ConfidenceScorer.score_consistency
  exact ⟨clamp01_nonneg _, clamp01_le_one _⟩

theorem score_completeness_bounds (df : DataFrame) :
    0 ≤ ConfidenceScorer.score_completeness df ∧
      ConfidenceScorer.score_completeness df ≤ 1 := by
  unfold ConfidenceScorer.score_completeness
  split
  · norm_num
  · rename_i hne
    refine ⟨le_min (by norm_num) ?_, min_le_left _ _⟩
    have hnr : df.nrows ≠ 0 ∧ df.cols ≠ [] := by
      simp only [DataFrame.isEmptyDF, Bool.or_eq_true, beq_iff_eq,
        List.isEmpty_iff, not_or] at hne
      exact hne
    have hcpos : 0 < df.ncols := List.length_pos.mpr hnr.2
    have hnulls : (totalNulls df : Rat) ≤ (df.nrows : Rat) * (df.ncols : Rat) := by
      have h := totalNulls_le df
      have hc : ((totalNulls df : Nat) : Rat) ≤ ((df.ncols * df.nrows : Nat) : Rat) := by
        exact_mod_cast h
      calc (totalNulls df : Rat) ≤ ((df.ncols * df.nrows : Nat) : Rat) := hc
      _ = (df.nrows : Rat) * (df.ncols : Rat) := by push_cast; ring
    have hpos : (0 : Rat) < (df.nrows : Rat) * (df.ncols : Rat) := by
      have h1 : 0 < df.nrows := Nat.pos_of_ne_zero hnr.1
      positivity
    have hdiv : (totalNulls df : Rat) / ((df.nrows : Rat) * (df.ncols : Rat)) ≤ 1 :=
      (div_le_one hpos).mpr hnulls
    apply add_nonneg
    · linarith
    · exact le_min (by positivity) (by norm_num)

/-- On a non-empty frame, `score` returns the four weighted entries. -/
theorem score_nonempty (df : DataFrame) (h : df.isEmptyDF = false) :
    ConfidenceScorer.score (some df) =
      [("data_quality", ConfidenceScorer.score_data_quality df),
       ("completeness", ConfidenceScorer.score_completeness df),
       ("consistency", ConfidenceScorer.score_consistency df),
       ("overall", ConfidenceScorer.score_data_quality df * 0.4
          + ConfidenceScorer.score_completeness df * 0.3
          + ConfidenceScorer.score_consistency df * 0.3)] := by
  simp [ConfidenceScorer.score, h]

/-- C1: for every non-empty, non-None query-result DataFrame,
`ConfidenceScorer.score` returns an overall confidence equal to 0.4 times
the data-quality sub-score plus 0.3 times the completeness sub-score plus
0.3 times the consistency sub-score, the three sub-scores being exactly the
values of `_score_data_quality`, `_score_completeness` and
`_score_consistency` on that DataFrame. -/
theorem claim_C1 (df : DataFrame) (h : df.isEmptyDF = false) :
    ConfidenceScorer.score (some df) =
      [("data_quality", ConfidenceScorer.score_data_quality df),
       ("completeness", ConfidenceScorer.score_completeness df),
       ("consistency", ConfidenceScorer.score_consistency df),
       ("overall", ConfidenceScorer.score_data_quality df * 0.4
          + ConfidenceScorer.score_completeness df * 0.3
          + ConfidenceScorer.score_consistency df * 0.3)] :=
  score_nonempty df h

/-- Witness for C1 at a concrete one-cell frame. -/
theorem claim_C1_witness :
    dfRevenue.isEmptyDF = false ∧
    ConfidenceScorer.score (some dfRevenue) =
      [("data_quality", ConfidenceScorer.score_data_quality dfRevenue),
       ("completeness", ConfidenceScorer.score_completeness dfRevenue),
       ("consistency", ConfidenceScorer.score_consistency dfRevenue),
       ("overall", ConfidenceScorer.score_data_quality dfRevenue * 0.4
          + ConfidenceScorer.score_completeness dfRevenue * 0.3
          + ConfidenceScorer.score_consistency dfRevenue * 0.3)] :=
  ⟨rfl, claim_C1 dfRevenue rfl⟩

/-- C8: every dict returned by `ConfidenceScorer.score` has exactly the four
entries data_quality, completeness, consistency and overall, all within
[0, 1]; for a None or empty DataFrame it is exactly
data_quality = 0.5, completeness = 0.0, consistency = 1.0, overall = 0.3. -/
theorem claim_C8 (df : Option DataFrame) :
    ((ConfidenceScorer.score df).map Prod.fst
        = ["data_quality", "completeness", "consistency", "overall"]) ∧
    (∀ p ∈ ConfidenceScorer.score df, 0 ≤ p.2 ∧ p.2 ≤ 1) ∧
    ((df = none ∨ ∃ d, df = some d ∧ d.isEmptyDF = true) →
      ConfidenceScorer.score df =
        [("data_quality", 0.5), ("completeness", 0),
         ("consistency", 1), ("overall", 0.3)]) := by
  have hover : ∀ d : DataFrame,
      0 ≤ ConfidenceScorer.score_data_quality d * 0.4
        + ConfidenceScorer.score_completeness d * 0.3
        + ConfidenceScorer.score_consistency d * 0.3 ∧
      ConfidenceScorer.score_data_quality d * 0.4
        + ConfidenceScorer.score_completeness d * 0.3
        + ConfidenceScorer.score_consistency d * 0.3 ≤ 1 := by
    intro d
    obtain ⟨h1, h2⟩ := score_data_quality_bounds d
    obtain ⟨h3, h4⟩ := score_completeness_bounds d
    obtain ⟨h5, h6⟩ := score_consistency_bounds d
    constructor <;> nlinarith
  cases df with
  | none =>
    refine ⟨rfl, ?_, fun _ => rfl⟩
    intro p hp
    simp only [ConfidenceScorer.score, ConfidenceScorer.emptyScores,
      List.mem_cons, List.not_mem_nil, or_false] at hp
    rcases hp with h | h | h | h <;> subst h <;> constructor <;> norm_num
  | some d =>
    by_cases hd : d.isEmptyDF = true
    · have hs : ConfidenceScorer.score (some d) = ConfidenceScorer.emptyScores := by
        simp [ConfidenceScorer.score, hd]
      rw [hs]
      refine ⟨rfl, ?_, fun _ => rfl⟩
      intro p hp
      simp only [ConfidenceScorer.emptyScores, List.mem_cons,
        List.not_mem_nil, or_false] at hp
      rcases hp with h | h | h | h <;> subst h <;> constructor <;> norm_num
    · have hs := score_nonempty d (by simpa using hd)
      rw [hs]
      refine ⟨rfl, ?_, ?_⟩
      · intro p hp
        simp only [List.mem_cons, List.not_mem_nil, or_false] at hp
        obtain ⟨h1, h2⟩ := score_data_quality_bounds d
        obtain ⟨h3, h4⟩ := score_completeness_bounds d
        obtain ⟨h5, h6⟩ := score_consistency_bounds d
        rcases hp with h | h | h | h <;> subst h
        · exact ⟨h1, h2⟩
        · exact ⟨h3, h4⟩
        · exact ⟨h5, h6⟩
        · exact hover d
      · rintro (h | ⟨d2, hd2, he⟩)
        · exact absurd h (by simp)
        · obtain rfl : d = d2 := by injection hd2
          exact absurd he (by simpa using hd)

/-- Witness for C8: the empty-frame case evaluated at `None`. -/
theorem claim_C8_witness :
    ConfidenceScorer.score none =
      [("data_quality", 0.5), ("completeness", 0),
       ("consistency", 1), ("overall", 0.3)] :=
  (claim_C8 none).2.2 (Or.inl rfl)

theorem nullPct_of_zero (df : DataFrame) (h : totalNulls df = 0) : nullPct df = 0 := by
  simp [nullPct, h]

theorem check1_issues_eq_nil (df : DataFrame) :
    ValidationAgent.check1_issues df = [] ↔ df.nrows ≤ ValidationAgent.maxRows := by
  unfold ValidationAgent.check1_issues
  by_cases h : df.nrows > ValidationAgent.maxRows
  · simp only [if_pos h]
    simp only [List.cons_ne_nil, false_iff]
    omega
  · simp only [if_neg h]
    simp only [true_iff]
    omega

theorem check4_issues_eq_nil (df : DataFrame) :
    ValidationAgent.check4_issues df = [] ↔ nullPct df ≤ 50 := by
  unfold ValidationAgent.check4_issues
  by_cases h : (decide (totalNulls df > 0) && decide (nullPct df > 50)) = true
  · rw [if_pos h]
    simp only [List.cons_ne_nil, false_iff]
    simp only [Bool.and_eq_true, decide_eq_true_eq] at h
    linarith [h.2]
  · rw [if_neg h]
    simp only [true_iff]
    simp only [Bool.and_eq_true, decide_eq_true_eq, not_and] at h
    by_cases h0 : totalNulls df = 0
    · rw [nullPct_of_zero df h0]; norm_num
    · have h2 := h (Nat.pos_of_ne_zero h0)
      linarith

theorem negIssue_sub_negCheck (x : String)
    (h : ValidationAgent.negIssueCols.contains x = true) :
    ValidationAgent.negCheckCols.contains x = true := by
  have hx : x ∈ ValidationAgent.negIssueCols := List.elem_iff.mp h
  fin_cases hx <;> decide

theorem check5_issues_eq_nil (df : DataFrame) :
    ValidationAgent.check5_issues df = []
      ↔ ∀ c ∈ numericCols df,
          ValidationAgent.negIssueCols.contains (strToLower c.name) = true → c.negCount = 0 := by
  unfold ValidationAgent.check5_issues ValidationAgent.check5_negCols
  rw [List.map_eq_nil_iff, List.filter_eq_nil_iff]
  constructor
  · intro h c hc hlow
    by_contra hne
    have hmemf : c ∈ (numericCols df).filter
        (fun c => ValidationAgent.negCheckCols.contains (strToLower c.name) && c.negCount > 0) := by
      rw [List.mem_filter]
      refine ⟨hc, ?_⟩
      rw [Bool.and_eq_true]
      exact ⟨negIssue_sub_negCheck _ hlow, by simpa using Nat.pos_of_ne_zero hne⟩
    exact absurd hlow (h c hmemf)
  · intro h c hc
    rw [List.mem_filter, Bool.and_eq_true] at hc
    intro hlow
    have := h c hc.1 hlow
    have hpos := hc.2.2
    simp only [this] at hpos
    exact absurd hpos (by simp)

theorem check8_issues_eq_nil (df : DataFrame) :
    ValidationAgent.check8_issues df = []
      ↔ ∀ c ∈ df.cols, ∀ p ∈ ValidationAgent.suspiciousPatterns,
          strContains (strToLower c.name) p = false := by
  unfold ValidationAgent.check8_issues
  rw [List.map_eq_nil_iff, List.filter_eq_nil_iff]
  constructor
  · intro h c hc p hp
    have hna := h c hc
    rw [List.any_eq_true] at hna
    push_neg at hna
    have := hna p hp
    simpa using this
  · intro h c hc
    rw [Bool.not_eq_true, List.any_eq_false]
    intro p hp
    simp [h c hc p hp]

/-- `passed` and `issues` of `_comprehensive_validation`, by definition. -/
theorem comprehensive_validation_passed (df : DataFrame) :
    (ValidationAgent.comprehensive_validation df).passed
      = ((ValidationAgent.issuesOf df).length == 0) := rfl

theorem comprehensive_validation_issues (df : DataFrame) :
    (ValidationAgent.comprehensive_validation df).issues
      = ValidationAgent.issuesOf df := rfl

/-- C2: `_comprehensive_validation` passes iff its issues list is empty, and
an issue is recorded exactly when the row count exceeds 1,000,000, the
overall null percentage exceeds 50%, a numeric revenue/quantity/amount
column holds a negative value, or a column name contains a suspicious
pattern; everything else yields warnings only and never fails validation. -/
theorem claim_C2 (df : DataFrame) :
    ((ValidationAgent.comprehensive_validation df).passed = true
        ↔ (ValidationAgent.comprehensive_validation df).issues = []) ∧
    ((ValidationAgent.comprehensive_validation df).passed = true
        ↔ (df.nrows ≤ ValidationAgent.maxRows ∧
           nullPct df ≤ 50 ∧
           (∀ c ∈ numericCols df,
              ValidationAgent.negIssueCols.contains (strToLower c.name) = true →
                c.negCount = 0) ∧
           (∀ c ∈ df.cols, ∀ p ∈ ValidationAgent.suspiciousPatterns,
              strContains (strToLower c.name) p = false))) := by
  have hp : (ValidationAgent.comprehensive_validation df).passed = true
      ↔ ValidationAgent.issuesOf df = [] := by
    rw [comprehensive_validation_passed, beq_iff_eq, List.length_eq_zero]
  constructor
  · rw [comprehensive_validation_issues]; exact hp
  · rw [hp]
    unfold ValidationAgent.issuesOf
    rw [List.append_eq_nil, List.append_eq_nil, List.append_eq_nil]
    rw [check1_issues_eq_nil, check4_issues_eq_nil, check5_issues_eq_nil,
      check8_issues_eq_nil]
    tauto

/-- Witness for C2: the one-cell revenue frame passes validation. -/
theorem claim_C2_witness :
    (ValidationAgent.comprehensive_validation dfRevenue).passed = true :=
  (claim_C2 dfRevenue).2.mpr (by
    refine ⟨by decide, ?_, by decide, by decide⟩
    rw [nullPct_of_zero dfRevenue rfl]
    norm_num)

/-! ### State-dict lemmas -/

theorem getVal_setKey_self (s : StateD) (k : String) (v : Value) :
    getVal (setKey s k v) k = some v := by
  induction s with
  | nil => simp [setKey, getVal]
  | cons kv rest ih =>
    by_cases h : kv.1 = k
    · simp [setKey, h, getVal]
    · simp [setKey, h, getVal, ih]

theorem getVal_setKey_ne (s : StateD) (k k' : String) (v : Value) (h : k' ≠ k) :
    getVal (setKey s k v) k' = getVal s k' := by
  have h0 : ¬ k = k' := fun he => h he.symm
  induction s with
  | nil =>
    simp [setKey, getVal, h0]
  | cons kv rest ih =>
    by_cases h2 : kv.1 = k
    · have h3 : ¬ k = k' := fun he => h he.symm
      simp [setKey, h2, getVal, h3]
    · simp only [setKey, h2, if_false]
      by_cases h4 : kv.1 = k'
      · simp [getVal, h4]
      · simp [getVal, h4, ih]

theorem hasKey_setKey (s : StateD) (k k' : String) (v : Value)
    (h : hasKey s k' = true) : hasKey (setKey s k v) k' = true := by
  by_cases he : k' = k
  · subst he
    simp [hasKey, getVal_setKey_self]
  · rw [hasKey, getVal_setKey_ne s k k' v he]
    exact h

theorem getVal_updateKeys_ne (s : StateD) (kvs : List (String × Value)) (k : String)
    (h : ∀ kv ∈ kvs, kv.1 ≠ k) : getVal (updateKeys s kvs) k = getVal s k := by
  induction kvs generalizing s with
  | nil => rfl
  | cons kv rest ih =>
    have hstep : updateKeys s (kv :: rest) = updateKeys (setKey s kv.1 kv.2) rest := rfl
    rw [hstep, ih (setKey s kv.1 kv.2) (fun x hx => h x (List.mem_cons_of_mem _ hx))]
    exact getVal_setKey_ne s kv.1 k kv.2 (Ne.symm (h kv (List.mem_cons_self _ _)))

theorem hasKey_updateKeys (s : StateD) (kvs : List (String × Value)) (k : String)
    (h : hasKey s k = true) : hasKey (updateKeys s kvs) k = true := by
  induction kvs generalizing s with
  | nil => exact h
  | cons kv rest ih =>
    exact ih (setKey s kv.1 kv.2) (hasKey_setKey s kv.1 k kv.2 h)

/-- Every branch of `extract_data` merges only its own keys into the state. -/
theorem extract_data_shape (execQ : String → Except String DataFrame) (state : StateD) :
    ∃ kvs : List (String × Value),
      (∀ kv ∈ kvs, kv.1 ∈ ["query_result", "error"]) ∧
      DataExtractionAgent.extract_data execQ state = updateKeys state kvs := by
  simp only [DataExtractionAgent.extract_data]
  repeat' split
  all_goals refine ⟨_, ?_, rfl⟩
  all_goals simp

/-- Every branch of `validate` merges only its own keys into the state. -/
theorem validate_shape (exc : Option String) (state : StateD) :
    ∃ kvs : List (String × Value),
      (∀ kv ∈ kvs, kv.1 ∈ ["validation_passed", "confidence_scores",
                           "validation_warnings", "error"]) ∧
      ValidationAgent.validate exc state = updateKeys state kvs := by
  cases exc with
  | some e => exact ⟨_, by simp, rfl⟩
  | none =>
    simp only [ValidationAgent.validate]
    repeat' split
    all_goals refine ⟨_, ?_, rfl⟩
    all_goals simp

/-- Every branch of `generate_response` merges only its own key. -/
theorem generate_response_shape (llm : String → String → Except String String)
    (state : StateD) :
    ∃ kvs : List (String × Value),
      (∀ kv ∈ kvs, kv.1 ∈ ["final_answer"]) ∧
      ResponseAgent.generate_response llm state = updateKeys state kvs := by
  simp only [ResponseAgent.generate_response]
  repeat' split
  all_goals refine ⟨_, ?_, rfl⟩
  all_goals simp

theorem getVal_update2_snd (s : StateD) (k1 k2 : String) (v1 v2 : Value) :
    getVal (updateKeys s [(k1, v1), (k2, v2)]) k2 = some v2 := by
  show getVal (setKey (setKey s k1 v1) k2 v2) k2 = some v2
  exact getVal_setKey_self _ _ _

theorem getVal_update2_fst (s : StateD) (k1 k2 : String) (v1 v2 : Value)
    (h : k1 ≠ k2) :
    getVal (updateKeys s [(k1, v1), (k2, v2)]) k1 = some v1 := by
  show getVal (setKey (setKey s k1 v1) k2 v2) k1 = some v1
  rw [getVal_setKey_ne _ _ _ _ h]
  exact getVal_setKey_self _ _ _

theorem dfRecords_length (df : DataFrame) : (dfRecords df).length = df.nrows := by
  simp [dfRecords]

theorem dfRecords_head (df : DataFrame) (n : Nat) :
    dfRecords (dfHead df n) = (dfRecords df).take n := by
  unfold dfRecords dfHead
  simp only []
  rw [← List.map_take, List.take_range]
  apply List.map_congr_left
  intro i hi
  rw [List.mem_range] at hi
  have hin : i < n := lt_of_lt_of_le hi (Nat.min_le_left n df.nrows)
  rw [List.map_map]
  apply List.map_congr_left
  intro c _
  simp only [Function.comp]
  congr 1
  rw [List.getD_eq_getElem?_getD, List.getD_eq_getElem?_getD,
    List.getElem?_take_of_lt hin]

theorem getVal_update3_1 (s : StateD) (k1 k2 k3 : String) (v1 v2 v3 : Value)
    (h2 : k1 ≠ k2) (h3 : k1 ≠ k3) :
    getVal (updateKeys s [(k1, v1), (k2, v2), (k3, v3)]) k1 = some v1 := by
  show getVal (setKey (setKey (setKey s k1 v1) k2 v2) k3 v3) k1 = some v1
  rw [getVal_setKey_ne _ _ _ _ h3, getVal_setKey_ne _ _ _ _ h2]
  exact getVal_setKey_self _ _ _

theorem getVal_update3_2 (s : StateD) (k1 k2 k3 : String) (v1 v2 v3 : Value)
    (h : k2 ≠ k3) :
    getVal (updateKeys s [(k1, v1), (k2, v2), (k3, v3)]) k2 = some v2 := by
  show getVal (setKey (setKey (setKey s k1 v1) k2 v2) k3 v3) k2 = some v2
  rw [getVal_setKey_ne _ _ _ _ h]
  exact getVal_setKey_self _ _ _

theorem getVal_update4_1 (s : StateD) (k1 k2 k3 k4 : String) (v1 v2 v3 v4 : Value)
    (h2 : k1 ≠ k2) (h3 : k1 ≠ k3) (h4 : k1 ≠ k4) :
    getVal (updateKeys s [(k1, v1), (k2, v2), (k3, v3), (k4, v4)]) k1 = some v1 := by
  show getVal (setKey (setKey (setKey (setKey s k1 v1) k2 v2) k3 v3) k4 v4) k1 = some v1
  rw [getVal_setKey_ne _ _ _ _ h4, getVal_setKey_ne _ _ _ _ h3,
    getVal_setKey_ne _ _ _ _ h2]
  exact getVal_setKey_self _ _ _

theorem getVal_update4_2 (s : StateD) (k1 k2 k3 k4 : String) (v1 v2 v3 v4 : Value)
    (h3 : k2 ≠ k3) (h4 : k2 ≠ k4) :
    getVal (updateKeys s [(k1, v1), (k2, v2), (k3, v3), (k4, v4)]) k2 = some v2 := by
  show getVal (setKey (setKey (setKey (setKey s k1 v1) k2 v2) k3 v3) k4 v4) k2 = some v2
  rw [getVal_setKey_ne _ _ _ _ h4, getVal_setKey_ne _ _ _ _ h3]
  exact getVal_setKey_self _ _ _

theorem mkQueryResult_data (df : DataFrame) :
    (DataExtractionAgent.mkQueryResult df).data = (dfRecords df).take 100 := by
  show (if df.nrows ≤ 100 then dfRecords df else dfRecords (dfHead df 100)) = _
  by_cases h : df.nrows ≤ 100
  · rw [if_pos h, List.take_of_length_le]
    rw [dfRecords_length]
    exact h
  · rw [if_neg h, dfRecords_head]

/-- C6: `extract_data` never raises; with no query intent or a failing query
execution it returns the state with a cleared result and an error message;
on success it returns no error and a result whose row_count, columns and
(at most 100) records describe the executed frame. -/
theorem claim_C6 (execQ : String → Except String DataFrame) (state : StateD) :
    (truthy (getVal state "query_intent") = false →
       getVal (DataExtractionAgent.extract_data execQ state) "query_result"
           = some Value.vnone ∧
       ∃ msg, getVal (DataExtractionAgent.extract_data execQ state) "error"
           = some (Value.vstr msg)) ∧
    (∀ qi, getVal state "query_intent" = some (Value.vintent qi) →
       (∀ err, execQ qi.sql_query = Except.error err →
          getVal (DataExtractionAgent.extract_data execQ state) "query_result"
              = some Value.vnone ∧
          getVal (DataExtractionAgent.extract_data execQ state) "error"
              = some (Value.vstr ("Data extraction error: " ++ err))) ∧
       (∀ df, execQ qi.sql_query = Except.ok df →
          getVal (DataExtractionAgent.extract_data execQ state) "error"
              = some Value.vnone ∧
          ∃ qr, getVal (DataExtractionAgent.extract_data execQ state) "query_result"
              = some (Value.vqres qr) ∧
            qr.row_count = df.nrows ∧ qr.columns = df.colNames ∧
            qr.data = (dfRecords df).take 100 ∧ qr.data.length ≤ 100)) := by
  constructor
  · intro h
    have he : DataExtractionAgent.extract_data execQ state
        = updateKeys state [("error", Value.vstr "No query intent provided"),
                            ("query_result", Value.vnone)] := by
      simp only [DataExtractionAgent.extract_data]
      rw [if_pos h]
    rw [he]
    exact ⟨getVal_update2_snd _ _ _ _ _,
      "No query intent provided", getVal_update2_fst _ _ _ _ _ (by decide)⟩
  · intro qi hqi
    constructor
    · intro err herr
      have he : DataExtractionAgent.extract_data execQ state
          = updateKeys state [("query_result", Value.vnone),
              ("error", Value.vstr ("Data extraction error: " ++ err))] := by
        simp only [DataExtractionAgent.extract_data]
        rw [hqi]
        simp [truthy, herr]
      rw [he]
      exact ⟨getVal_update2_fst _ _ _ _ _ (by decide), getVal_update2_snd _ _ _ _ _⟩
    · intro df hdf
      have he : DataExtractionAgent.extract_data execQ state
          = updateKeys state
              [("query_result", Value.vqres (DataExtractionAgent.mkQueryResult df)),
               ("error", Value.vnone)] := by
        simp only [DataExtractionAgent.extract_data]
        rw [hqi]
        simp [truthy, hdf]
      rw [he]
      refine ⟨getVal_update2_snd _ _ _ _ _,
        DataExtractionAgent.mkQueryResult df,
        getVal_update2_fst _ _ _ _ _ (by decide),
        rfl, rfl, mkQueryResult_data df, ?_⟩
      rw [mkQueryResult_data df, List.length_take]
      exact Nat.min_le_left _ _

/-- Witness for C6: a failing execution on a state holding an intent. -/
theorem claim_C6_witness :
    getVal (DataExtractionAgent.extract_data execErrW stateIntent) "query_result"
        = some Value.vnone ∧
    getVal (DataExtractionAgent.extract_data execErrW stateIntent) "error"
        = some (Value.vstr "Data extraction error: boom") :=
  ((claim_C6 execErrW stateIntent).2
    { sql_query := "SELECT 1", explanation := "demo" } rfl).1 "boom" rfl

/-- C7: each agent step preserves all state keys and leaves every key
outside its own output keys unchanged. -/
theorem claim_C7 (state : StateD) :
    (∀ execQ : String → Except String DataFrame,
       (∀ k, hasKey state k = true →
          hasKey (DataExtractionAgent.extract_data execQ state) k = true) ∧
       (∀ k, k ∉ ["query_result", "error"] →
          getVal (DataExtractionAgent.extract_data execQ state) k = getVal state k)) ∧
    (∀ exc : Option String,
       (∀ k, hasKey state k = true →
          hasKey (ValidationAgent.validate exc state) k = true) ∧
       (∀ k, k ∉ ["validation_passed", "confidence_scores",
                  "validation_warnings", "error"] →
          getVal (ValidationAgent.validate exc state) k = getVal state k)) ∧
    (∀ llm : String → String → Except String String,
       (∀ k, hasKey state k = true →
          hasKey (ResponseAgent.generate_response llm state) k = true) ∧
       (∀ k, k ∉ ["final_answer"] →
          getVal (ResponseAgent.generate_response llm state) k = getVal state k)) := by
  refine ⟨?_, ?_, ?_⟩
  · intro execQ
    obtain ⟨kvs, hsub, heq⟩ := extract_data_shape execQ state
    rw [heq]
    constructor
    · intro k hk
      exact hasKey_updateKeys state kvs k hk
    · intro k hn
      exact getVal_updateKeys_ne state kvs k
        (fun kv hkv he => hn (he ▸ hsub kv hkv))
  · intro exc
    obtain ⟨kvs, hsub, heq⟩ := validate_shape exc state
    rw [heq]
    constructor
    · intro k hk
      exact hasKey_updateKeys state kvs k hk
    · intro k hn
      exact getVal_updateKeys_ne state kvs k
        (fun kv hkv he => hn (he ▸ hsub kv hkv))
  · intro llm
    obtain ⟨kvs, hsub, heq⟩ := generate_response_shape llm state
    rw [heq]
    constructor
    · intro k hk
      exact hasKey_updateKeys state kvs k hk
    · intro k hn
      exact getVal_updateKeys_ne state kvs k
        (fun kv hkv he => hn (he ▸ hsub kv hkv))

/-- Witness for C7: a question entry survives a failing extraction step. -/
theorem claim_C7_witness :
    getVal (DataExtractionAgent.extract_data execErrW stateQ) "question"
      = some (Value.vstr "total revenue?") := by
  have h := ((claim_C7 stateQ).1 execErrW).2 "question" (by decide)
  rw [h]
  rfl

/-- C9: `validate` is total, always yields `validation_passed` and
`confidence_scores` entries, and degrades to passed = false with overall 0.0
whenever the query result is missing, a prior error is set, the dataframe is
missing, or an exception interrupts the body. -/
theorem claim_C9 (exc : Option String) (state : StateD) :
    (∃ b, getVal (ValidationAgent.validate exc state) "validation_passed"
        = some (Value.vbool b)) ∧
    (∃ d, getVal (ValidationAgent.validate exc state) "confidence_scores"
        = some (Value.vscores d)) ∧
    ((truthy (getVal state "query_result") = false ∨
      truthy (getVal state "error") = true ∨
      (∃ qr, getVal state "query_result" = some (Value.vqres qr) ∧
         qr.dataframe = none) ∨
      exc ≠ none) →
      getVal (ValidationAgent.validate exc state) "validation_passed"
          = some (Value.vbool false) ∧
      getVal (ValidationAgent.validate exc state) "confidence_scores"
          = some (Value.vscores [("overall", 0)])) := by
  cases exc with
  | some e =>
    have he : ValidationAgent.validate (some e) state
        = updateKeys state
            [("validation_passed", Value.vbool false),
             ("confidence_scores", Value.vscores ValidationAgent.zeroScores),
             ("error", Value.vstr ("Validation error: " ++ e))] := rfl
    rw [he]
    exact ⟨⟨false, getVal_update3_1 _ _ _ _ _ _ _ (by decide) (by decide)⟩,
      ⟨ValidationAgent.zeroScores, getVal_update3_2 _ _ _ _ _ _ _ (by decide)⟩,
      fun _ => ⟨getVal_update3_1 _ _ _ _ _ _ _ (by decide) (by decide),
        getVal_update3_2 _ _ _ _ _ _ _ (by decide)⟩⟩
  | none =>
    by_cases hqr : truthy (getVal state "query_result") = false
    · have he : ValidationAgent.validate none state
          = updateKeys state
              [("validation_passed", Value.vbool false),
               ("confidence_scores", Value.vscores ValidationAgent.zeroScores),
               ("error", Value.vstr "No query result to validate")] := by
        simp only [ValidationAgent.validate]
        rw [if_pos hqr]
      rw [he]
      exact ⟨⟨false, getVal_update3_1 _ _ _ _ _ _ _ (by decide) (by decide)⟩,
        ⟨ValidationAgent.zeroScores, getVal_update3_2 _ _ _ _ _ _ _ (by decide)⟩,
        fun _ => ⟨getVal_update3_1 _ _ _ _ _ _ _ (by decide) (by decide),
          getVal_update3_2 _ _ _ _ _ _ _ (by decide)⟩⟩
    · have hqt : truthy (getVal state "query_result") = true := by
        revert hqr
        cases truthy (getVal state "query_result") <;> simp
      rcases hv : getVal state "query_result" with _ | v
      · rw [hv] at hqt
        simp [truthy] at hqt
      · cases v
        all_goals try {
          rw [hv] at hqt
          have he : ValidationAgent.validate none state
              = updateKeys state
                  [("validation_passed", Value.vbool false),
                   ("confidence_scores", Value.vscores ValidationAgent.zeroScores),
                   ("error", Value.vstr "Validation error: attribute error")] := by
            simp only [ValidationAgent.validate]
            rw [hv]
            simp [hqt]
          rw [he]
          exact ⟨⟨false, getVal_update3_1 _ _ _ _ _ _ _ (by decide) (by decide)⟩,
            ⟨ValidationAgent.zeroScores, getVal_update3_2 _ _ _ _ _ _ _ (by decide)⟩,
            fun _ => ⟨getVal_update3_1 _ _ _ _ _ _ _ (by decide) (by decide),
              getVal_update3_2 _ _ _ _ _ _ _ (by decide)⟩⟩ }
        rename_i qr
        · by_cases herr : truthy (getVal state "error") = true
          · have he : ValidationAgent.validate none state
                = updateKeys state
                    [("validation_passed", Value.vbool false),
                     ("confidence_scores", Value.vscores ValidationAgent.zeroScores)] := by
              simp only [ValidationAgent.validate]
              rw [hv]
              simp [show truthy (some (Value.vqres qr)) = true from rfl, herr]
            rw [he]
            exact ⟨⟨false, getVal_update2_fst _ _ _ _ _ (by decide)⟩,
              ⟨ValidationAgent.zeroScores, getVal_update2_snd _ _ _ _ _⟩,
              fun _ => ⟨getVal_update2_fst _ _ _ _ _ (by decide),
                getVal_update2_snd _ _ _ _ _⟩⟩
          · cases hdf : qr.dataframe with
            | none =>
              have he : ValidationAgent.validate none state
                  = updateKeys state
                      [("validation_passed", Value.vbool false),
                       ("confidence_scores", Value.vscores ValidationAgent.zeroScores),
                       ("error", Value.vstr "No dataframe in query result")] := by
                simp only [ValidationAgent.validate]
                rw [hv]
                simp [show truthy (some (Value.vqres qr)) = true from rfl, herr, hdf]
              rw [he]
              exact ⟨⟨false, getVal_update3_1 _ _ _ _ _ _ _ (by decide) (by decide)⟩,
                ⟨ValidationAgent.zeroScores, getVal_update3_2 _ _ _ _ _ _ _ (by decide)⟩,
                fun _ => ⟨getVal_update3_1 _ _ _ _ _ _ _ (by decide) (by decide),
                  getVal_update3_2 _ _ _ _ _ _ _ (by decide)⟩⟩
            | some df =>
              have himp : (truthy (some (Value.vqres qr)) = false ∨
                  truthy (getVal state "error") = true ∨
                  (∃ qr2, some (Value.vqres qr) = some (Value.vqres qr2) ∧
                     qr2.dataframe = none) ∨
                  (none : Option String) ≠ none) → False := by
                rintro (h1 | h2 | ⟨qr2, hqr2, hdf2⟩ | h4)
                · exact absurd h1 (by simp [truthy])
                · exact herr h2
                · have hq2 : qr2 = qr := by
                    have h5 : Value.vqres qr = Value.vqres qr2 := by
                      injection hqr2
                    injection h5 with h6
                    exact h6.symm
                  rw [hq2, hdf] at hdf2
                  exact absurd hdf2 (by simp)
                · exact h4 rfl
              by_cases hp : (ValidationAgent.comprehensive_validation df).passed = false
              · have he : ValidationAgent.validate none state
                    = updateKeys state
                        [("validation_passed", Value.vbool false),
                         ("confidence_scores",
                           Value.vscores (ConfidenceScorer.score (some df))),
                         ("validation_warnings",
                           Value.vstrs (ValidationAgent.comprehensive_validation df).warnings),
                         ("error", Value.vstr ("Validation failed: "
                            ++ String.intercalate "; "
                                 (ValidationAgent.comprehensive_validation df).issues))] := by
                  simp only [ValidationAgent.validate]
                  rw [hv]
                  simp [show truthy (some (Value.vqres qr)) = true from rfl, herr, hdf, hp]
                rw [he]
                exact ⟨⟨false, getVal_update4_1 _ _ _ _ _ _ _ _ _
                    (by decide) (by decide) (by decide)⟩,
                  ⟨ConfidenceScorer.score (some df), getVal_update4_2 _ _ _ _ _ _ _ _ _
                    (by decide) (by decide)⟩,
                  fun h => absurd (himp h) (by simp)⟩
              · have he : ValidationAgent.validate none state
                    = updateKeys state
                        [("validation_passed", Value.vbool true),
                         ("confidence_scores",
                           Value.vscores (ConfidenceScorer.score (some df))),
                         ("validation_warnings",
                           Value.vstrs (ValidationAgent.comprehensive_validation df).warnings),
                         ("error", Value.vnone)] := by
                  simp only [ValidationAgent.validate]
                  rw [hv]
                  simp [show truthy (some (Value.vqres qr)) = true from rfl, herr, hdf, hp]
                rw [he]
                exact ⟨⟨true, getVal_update4_1 _ _ _ _ _ _ _ _ _
                    (by decide) (by decide) (by decide)⟩,
                  ⟨ConfidenceScorer.score (some df), getVal_update4_2 _ _ _ _ _ _ _ _ _
                    (by decide) (by decide)⟩,
                  fun h => absurd (himp h) (by simp)⟩

/-- Witness for C9: the empty state with no exception. -/
theorem claim_C9_witness :
    getVal (ValidationAgent.validate none []) "validation_passed"
        = some (Value.vbool false) ∧
    getVal (ValidationAgent.validate none []) "confidence_scores"
        = some (Value.vscores [("overall", 0)]) :=
  (claim_C9 none []).2.2 (Or.inl rfl)

theorem mem_selectCols_colNames (df : DataFrame) (names : List String) (y : String)
    (h : y ∈ (selectCols df names).colNames) : y ∈ names := by
  unfold selectCols DataFrame.colNames at h
  simp only [List.mem_map] at h
  obtain ⟨c, hc, rfl⟩ := h
  obtain ⟨n, hn, hf⟩ := List.mem_filterMap.mp hc
  have hp := List.find?_some hf
  have : c.name = n := by simpa using hp
  rw [this]
  exact hn

theorem dfRecords_key_mem (d : DataFrame) (row : List (String × Cell))
    (hrow : row ∈ dfRecords d) (kv : String × Cell) (hkv : kv ∈ row) :
    kv.1 ∈ d.colNames := by
  unfold dfRecords at hrow
  obtain ⟨i, _, rfl⟩ := List.mem_map.mp hrow
  obtain ⟨c, hc, rfl⟩ := List.mem_map.mp hkv
  exact List.mem_map.mpr ⟨c, hc, rfl⟩

theorem colNames_subset_available (df : DataFrame)
    (hlen : ¬ (ResponseAgent.availableCols df).length < df.ncols) :
    ∀ y ∈ df.colNames, y ∈ ResponseAgent.availableCols df := by
  intro y hy
  have hcl : df.colNames.length = df.ncols := by
    simp [DataFrame.colNames, DataFrame.ncols]
  unfold ResponseAgent.availableCols at hlen ⊢
  by_cases hav : (ResponseAgent.importantCols.filter
      (fun c => df.colNames.contains c)).isEmpty = true
  · rw [if_pos hav] at hlen ⊢
    rw [List.length_take] at hlen
    have hn10 : df.ncols ≤ 10 := by omega
    rw [List.take_of_length_le (by omega)]
    exact hy
  · rw [if_neg hav] at hlen ⊢
    have hnodup : (ResponseAgent.importantCols.filter
        (fun c => df.colNames.contains c)).Nodup :=
      List.Nodup.filter _ (by decide)
    have hsub : ∀ x ∈ ResponseAgent.importantCols.filter
        (fun c => df.colNames.contains c), x ∈ df.colNames := by
      intro x hx
      exact List.elem_iff.mp (List.mem_filter.mp hx).2
    have h1 : (ResponseAgent.importantCols.filter
        (fun c => df.colNames.contains c)).toFinset ⊆ df.colNames.toFinset := by
      intro x hx
      rw [List.mem_toFinset] at hx ⊢
      exact hsub x hx
    have hcardav := List.toFinset_card_of_nodup hnodup
    have hcardcn := df.colNames.toFinset_card_le
    have heq := Finset.eq_of_subset_of_card_le h1 (by omega)
    have hyf : y ∈ (ResponseAgent.importantCols.filter
        (fun c => df.colNames.contains c)).toFinset := by
      rw [heq, List.mem_toFinset]
      exact hy
    exact List.mem_toFinset.mp hyf

/-- C5: `_format_results` serializes at most 5 data rows (plus descriptive
statistics of the numeric columns) and names at most 15 columns when the
result has more than 10 rows; with 10 or fewer rows it serializes all rows
restricted to the important-column subset (or the first 10 columns when no
important column is present); row content is bounded by a constant. -/
theorem claim_C5 (qr : QueryResult) (df : DataFrame) (h : qr.dataframe = some df) :
    (ResponseAgent.format_results qr).serializedRows.length ≤ 10 ∧
    (df.nrows > 10 →
      (ResponseAgent.format_results qr).serializedRows.length ≤ 5 ∧
      (ResponseAgent.format_results qr).listedCols.length ≤ 15 ∧
      (ResponseAgent.format_results qr).statsCols = (numericCols df).map Col.name) ∧
    (df.nrows ≤ 10 → df.isEmptyDF = false →
      (ResponseAgent.format_results qr).serializedRows.length = df.nrows ∧
      ∀ row ∈ (ResponseAgent.format_results qr).serializedRows, ∀ kv ∈ row,
        kv.1 ∈ ResponseAgent.availableCols df) := by
  by_cases hemp : df.isEmptyDF = true
  · have hfr : ResponseAgent.format_results qr = ResponseAgent.noDataSummary := by
      simp [ResponseAgent.format_results, h, hemp]
    rw [hfr]
    refine ⟨by simp [ResponseAgent.noDataSummary], ?_, ?_⟩
    · intro h10
      have hcols : df.cols = [] := by
        unfold DataFrame.isEmptyDF at hemp
        simp only [Bool.or_eq_true, beq_iff_eq, List.isEmpty_iff] at hemp
        rcases hemp with h0 | h0
        · omega
        · exact h0
      exact ⟨by simp [ResponseAgent.noDataSummary],
        by simp [ResponseAgent.noDataSummary],
        by simp [ResponseAgent.noDataSummary, numericCols, hcols]⟩
    · intro _ hne
      rw [hne] at hemp
      exact absurd hemp (by simp)
  · have hne : df.isEmptyDF = false := by
      revert hemp
      cases df.isEmptyDF <;> simp
    by_cases h10 : df.nrows ≤ 10
    · have hrows : (ResponseAgent.format_results qr).serializedRows
          = dfRecords (if (ResponseAgent.availableCols df).length < df.ncols
              then selectCols df (ResponseAgent.availableCols df) else df) := by
        simp [ResponseAgent.format_results, h, hne, h10]
      refine ⟨?_, ?_, ?_⟩
      · rw [hrows]
        by_cases hlt : (ResponseAgent.availableCols df).length < df.ncols
        · rw [if_pos hlt, dfRecords_length]
          exact h10
        · rw [if_neg hlt, dfRecords_length]
          exact h10
      · intro hgt
        omega
      · intro _ _
        constructor
        · rw [hrows]
          by_cases hlt : (ResponseAgent.availableCols df).length < df.ncols
          · rw [if_pos hlt, dfRecords_length]
            rfl
          · rw [if_neg hlt, dfRecords_length]
        · intro row hrow kv hkv
          rw [hrows] at hrow
          by_cases hlt : (ResponseAgent.availableCols df).length < df.ncols
          · rw [if_pos hlt] at hrow
            exact mem_selectCols_colNames df _ _
              (dfRecords_key_mem _ row hrow kv hkv)
          · rw [if_neg hlt] at hrow
            exact colNames_subset_available df hlt kv.1
              (dfRecords_key_mem _ row hrow kv hkv)
    · have hrows : (ResponseAgent.format_results qr).serializedRows
          = dfRecords (dfHead (if (ResponseAgent.availableCols df).length < df.ncols
              then selectCols df (ResponseAgent.availableCols df) else df) 5) := by
        simp [ResponseAgent.format_results, h, hne, h10]
      have hlisted : (ResponseAgent.format_results qr).listedCols
          = df.colNames.take 15 := by
        simp [ResponseAgent.format_results, h, hne, h10]
      have hstats : (ResponseAgent.format_results qr).statsCols
          = (numericCols df).map Col.name := by
        simp [ResponseAgent.format_results, h, hne, h10]
      have hrlen : (ResponseAgent.format_results qr).serializedRows.length ≤ 5 := by
        rw [hrows, dfRecords_length]
        exact Nat.min_le_left _ _
      refine ⟨le_trans hrlen (by norm_num), ?_, ?_⟩
      · intro _
        refine ⟨hrlen, ?_, hstats⟩
        rw [hlisted, List.length_take]
        exact Nat.min_le_left _ _
      · intro h10' _
        omega

/-- Witness for C5: the one-row revenue frame wrapped as a query result. -/
theorem claim_C5_witness :
    ((ResponseAgent.format_results (DataExtractionAgent.mkQueryResult dfRevenue)).serializedRows.length
        = dfRevenue.nrows) ∧
    (ResponseAgent.format_results (DataExtractionAgent.mkQueryResult dfRevenue)).serializedRows.length ≤ 10 := by
  have h := claim_C5 (DataExtractionAgent.mkQueryResult dfRevenue) dfRevenue rfl
  exact ⟨(h.2.2 (by decide) rfl).1, h.1⟩

theorem tryFallbacks_ok (call : String → Except String String) (origErr : String)
    (pre : List String) (m : String) (post : List String) (r : String)
    (hpre : ∀ x ∈ pre, ∃ fe, call x = Except.error fe ∧
        GeminiFallbackLLM.should_fallback fe = true)
    (hm : call m = Except.ok r) :
    ∀ cur, GeminiFallbackLLM.tryFallbacks call origErr (pre ++ m :: post) cur
      = (Except.ok r, m) := by
  induction pre with
  | nil =>
    intro cur
    simp [GeminiFallbackLLM.tryFallbacks, hm]
  | cons x xs ih =>
    intro cur
    obtain ⟨fe, hfe, hsf⟩ := hpre x (List.mem_cons_self _ _)
    simp only [List.cons_append, GeminiFallbackLLM.tryFallbacks, hfe, hsf, if_true]
    exact ih (fun y hy => hpre y (List.mem_cons_of_mem _ hy)) x

theorem tryFallbacks_raise (call : String → Except String String) (origErr : String)
    (pre : List String) (m : String) (post : List String) (fe : String)
    (hpre : ∀ x ∈ pre, ∃ fe2, call x = Except.error fe2 ∧
        GeminiFallbackLLM.should_fallback fe2 = true)
    (hm : call m = Except.error fe)
    (hsf : GeminiFallbackLLM.should_fallback fe = false) :
    ∀ cur, GeminiFallbackLLM.tryFallbacks call origErr (pre ++ m :: post) cur
      = (Except.error fe, m) := by
  induction pre with
  | nil =>
    intro cur
    simp [GeminiFallbackLLM.tryFallbacks, hm, hsf]
  | cons x xs ih =>
    intro cur
    obtain ⟨fe2, hfe2, hsf2⟩ := hpre x (List.mem_cons_self _ _)
    simp only [List.cons_append, GeminiFallbackLLM.tryFallbacks, hfe2, hsf2, if_true]
    exact ih (fun y hy => hpre y (List.mem_cons_of_mem _ hy)) x

theorem tryFallbacks_exhaust (call : String → Except String String) (origErr : String)
    (ms : List String)
    (hall : ∀ x ∈ ms, ∃ fe, call x = Except.error fe ∧
        GeminiFallbackLLM.should_fallback fe = true) :
    ∀ cur, (GeminiFallbackLLM.tryFallbacks call origErr ms cur).1
      = Except.error ("All Gemini models exhausted. Original error: " ++ origErr) := by
  induction ms with
  | nil => intro cur; rfl
  | cons x xs ih =>
    intro cur
    obtain ⟨fe, hfe, hsf⟩ := hall x (List.mem_cons_self _ _)
    simp only [GeminiFallbackLLM.tryFallbacks, hfe, hsf, if_true]
    exact ih (fun y hy => hall y (List.mem_cons_of_mem _ hy)) x

theorem dedupFold_aux (cur : String) : ∀ (l acc : List String),
    l.Nodup → (∀ x ∈ l, acc.contains x = false) →
    l.foldl (fun acc m => if m != cur && !(acc.contains m) then acc ++ [m] else acc) acc
      = acc ++ l.filter (fun m => m != cur) := by
  intro l
  induction l with
  | nil =>
    intro acc _ _
    simp
  | cons x xs ih =>
    intro acc hnd hmem
    simp only [List.foldl_cons, List.filter_cons]
    have hxacc : acc.contains x = false := hmem x (List.mem_cons_self _ _)
    have hndxs := (List.nodup_cons.mp hnd).2
    have hxnotxs := (List.nodup_cons.mp hnd).1
    by_cases hx : (x != cur) = true
    · have hcond : (x != cur && !(acc.contains x)) = true := by
        rw [hx, hxacc]
        rfl
      rw [if_pos hcond, if_pos hx]
      have hmem2 : ∀ y ∈ xs, (acc ++ [x]).contains y = false := by
        intro y hy
        have h1 : acc.contains y = false := hmem y (List.mem_cons_of_mem _ hy)
        have h2 : y ≠ x := fun he => hxnotxs (he ▸ hy)
        cases hcase : (acc ++ [x]).contains y with
        | false => rfl
        | true =>
          exfalso
          have hmemy := List.elem_iff.mp hcase
          rw [List.mem_append, List.mem_singleton] at hmemy
          rcases hmemy with hya | hyx
          · have hc2 : acc.contains y = true := List.elem_iff.mpr hya
            rw [h1] at hc2
            exact absurd hc2 (by simp)
          · exact h2 hyx
      rw [ih (acc ++ [x]) hndxs hmem2]
      simp [List.append_assoc]
    · have hxf : (x != cur) = false := by
        revert hx
        cases (x != cur) <;> simp
      have hcond : (x != cur && !(acc.contains x)) = false := by
        rw [hxf]
        rfl
      rw [if_neg (show ¬ (x != cur && !(acc.contains x)) = true from by
            rw [hcond]; simp),
        if_neg (show ¬ (x != cur) = true from by rw [hxf]; simp)]
      exact ih acc hndxs (fun y hy => hmem y (List.mem_cons_of_mem _ hy))

theorem get_fallback_models_eq (cur : String) :
    GeminiFallbackLLM.get_fallback_models cur
      = GEMINI_FALLBACK_MODELS.filter (fun m => m != cur) := by
  unfold GeminiFallbackLLM.get_fallback_models
  rw [dedupFold_aux cur GEMINI_FALLBACK_MODELS [] (by decide) (fun x _ => rfl)]
  rfl

theorem mem_get_fallback_models (m cur : String) :
    m ∈ GeminiFallbackLLM.get_fallback_models cur
      ↔ (m ∈ GEMINI_FALLBACK_MODELS ∧ m ≠ cur) := by
  rw [get_fallback_models_eq, List.mem_filter]
  simp

/-- C3: on a rate-limit/quota/not-found error from the current model,
`_generate` walks `GEMINI_FALLBACK_MODELS` (minus the current model, in
listed order) and returns the first success; a non-matching error — from the
primary call or any fallback call — is re-raised as is; if every fallback
fails with a matching error, the exhaustion error carrying the original
error is raised. -/
theorem claim_C3 (call : String → Except String String)
    (s : GeminiFallbackLLM.GFState) :
    (∀ e, call s.current_model = Except.error e →
       GeminiFallbackLLM.should_fallback e = false →
       GeminiFallbackLLM.generate call s = (Except.error e, s)) ∧
    (∀ e, call s.current_model = Except.error e →
       GeminiFallbackLLM.should_fallback e = true →
       (GeminiFallbackLLM.get_fallback_models s.current_model
           = GEMINI_FALLBACK_MODELS.filter (fun m => m != s.current_model)) ∧
       (∀ pre m post r,
          GeminiFallbackLLM.get_fallback_models s.current_model = pre ++ m :: post →
          (∀ x ∈ pre, ∃ fe, call x = Except.error fe ∧
             GeminiFallbackLLM.should_fallback fe = true) →
          call m = Except.ok r →
          (GeminiFallbackLLM.generate call s).1 = Except.ok r) ∧
       (∀ pre m post fe,
          GeminiFallbackLLM.get_fallback_models s.current_model = pre ++ m :: post →
          (∀ x ∈ pre, ∃ fe2, call x = Except.error fe2 ∧
             GeminiFallbackLLM.should_fallback fe2 = true) →
          call m = Except.error fe →
          GeminiFallbackLLM.should_fallback fe = false →
          (GeminiFallbackLLM.generate call s).1 = Except.error fe) ∧
       ((∀ x ∈ GeminiFallbackLLM.get_fallback_models s.current_model,
           ∃ fe, call x = Except.error fe ∧
             GeminiFallbackLLM.should_fallback fe = true) →
          (GeminiFallbackLLM.generate call s).1
            = Except.error ("All Gemini models exhausted. Original error: " ++ e))) := by
  constructor
  · intro e he hsf
    simp [GeminiFallbackLLM.generate, he, hsf]
  · intro e he hsf
    have h1 : (GeminiFallbackLLM.generate call s).1
        = (GeminiFallbackLLM.tryFallbacks call e
            (GeminiFallbackLLM.get_fallback_models s.current_model)
            s.current_model).1 := by
      simp [GeminiFallbackLLM.generate, he, hsf]
    refine ⟨get_fallback_models_eq _, ?_, ?_, ?_⟩
    · intro pre m post r hlist hpre hm
      rw [h1, hlist, tryFallbacks_ok call e pre m post r hpre hm]
    · intro pre m post fe hlist hpre hm hsfe
      rw [h1, hlist, tryFallbacks_raise call e pre m post fe hpre hm hsfe]
    · intro hall
      rw [h1, tryFallbacks_exhaust call e _ hall]

/-- Witness for C3: a rate-limited primary falling back to the next model. -/
theorem claim_C3_witness :
    (GeminiFallbackLLM.generate geminiCallW
        { primary_model := "gemini-2.0-flash", current_model := "gemini-2.0-flash" }).1
      = Except.ok "fallback answer" := by
  have h := (claim_C3 geminiCallW
      { primary_model := "gemini-2.0-flash", current_model := "gemini-2.0-flash" }).2
      "429 Resource has been exhausted" rfl (by decide)
  exact h.2.1 [] "gemini-1.5-flash-latest"
    ["gemini-1.5-pro-latest", "gemini-pro"] "fallback answer" (by decide)
    (fun x hx => absurd hx (List.not_mem_nil x)) rfl

/-- Counterexample to C10 as stated: with the custom primary model
"custom-model" (which is not a member of `GEMINI_FALLBACK_MODELS`), a
successful fallback moves `current_model` to "gemini-2.0-flash", and the
original primary does NOT re-enter the fallback candidate list. -/
theorem claim_C10_counterexample :
    (GeminiFallbackLLM.generate geminiCallX
        { primary_model := "custom-model", current_model := "custom-model" }).2.current_model
      = "gemini-2.0-flash" ∧
    "custom-model" ∉ GeminiFallbackLLM.get_fallback_models "gemini-2.0-flash" := by
  constructor
  · decide
  · decide

/-- C10 (amended): a successful fallback call permanently sets
`current_model` to the fallback model that succeeded, so a later `_generate`
tries that model first; `_get_fallback_models` returns exactly the models of
`GEMINI_FALLBACK_MODELS` other than the current model, without duplicates;
and after a fallback from the primary model, the primary re-enters the
fallback candidate list provided it is itself one of
`GEMINI_FALLBACK_MODELS`. -/
theorem claim_C10 (call : String → Except String String)
    (s : GeminiFallbackLLM.GFState) :
    (∀ cur : String,
       GeminiFallbackLLM.get_fallback_models cur
           = GEMINI_FALLBACK_MODELS.filter (fun m => m != cur) ∧
       (GeminiFallbackLLM.get_fallback_models cur).Nodup ∧
       (∀ m, m ∈ GeminiFallbackLLM.get_fallback_models cur ↔
          (m ∈ GEMINI_FALLBACK_MODELS ∧ m ≠ cur))) ∧
    (∀ e pre m post r, call s.current_model = Except.error e →
       GeminiFallbackLLM.should_fallback e = true →
       GeminiFallbackLLM.get_fallback_models s.current_model = pre ++ m :: post →
       (∀ x ∈ pre, ∃ fe, call x = Except.error fe ∧
          GeminiFallbackLLM.should_fallback fe = true) →
       call m = Except.ok r →
       (GeminiFallbackLLM.generate call s).2.current_model = m ∧
       (s.current_model = s.primary_model →
        s.primary_model ∈ GEMINI_FALLBACK_MODELS →
          s.primary_model ∈ GeminiFallbackLLM.get_fallback_models
            (GeminiFallbackLLM.generate call s).2.current_model)) ∧
    (∀ (s2 : GeminiFallbackLLM.GFState) (call2 : String → Except String String) r2,
       call2 s2.current_model = Except.ok r2 →
       GeminiFallbackLLM.generate call2 s2 = (Except.ok r2, s2)) := by
  refine ⟨?_, ?_, ?_⟩
  · intro cur
    refine ⟨get_fallback_models_eq cur, ?_, fun m => mem_get_fallback_models m cur⟩
    rw [get_fallback_models_eq cur]
    exact List.Nodup.filter _ (by decide)
  · intro e pre m post r he hsf hlist hpre hm
    have h2 : (GeminiFallbackLLM.generate call s).2
        = { primary_model := s.primary_model,
            current_model := (GeminiFallbackLLM.tryFallbacks call e
              (GeminiFallbackLLM.get_fallback_models s.current_model)
              s.current_model).2 } := by
      simp [GeminiFallbackLLM.generate, he, hsf]
    have hcur : (GeminiFallbackLLM.generate call s).2.current_model = m := by
      rw [h2]
      show (GeminiFallbackLLM.tryFallbacks call e _ s.current_model).2 = m
      rw [hlist, tryFallbacks_ok call e pre m post r hpre hm]
    refine ⟨hcur, ?_⟩
    intro hcp hprim
    rw [hcur, mem_get_fallback_models]
    refine ⟨hprim, ?_⟩
    have hmmem : m ∈ GeminiFallbackLLM.get_fallback_models s.current_model := by
      rw [hlist]
      simp
    have hmne : m ≠ s.current_model := ((mem_get_fallback_models m _).mp hmmem).2
    rw [← hcp]
    exact fun hmeq => hmne hmeq.symm
  · intro s2 call2 r2 hok
    simp [GeminiFallbackLLM.generate, hok]

/-- Witness for the amended C10: after the rate-limited default primary
falls back to the second model, the primary is again a fallback candidate. -/
theorem claim_C10_witness :
    (GeminiFallbackLLM.generate geminiCallW
        { primary_model := "gemini-2.0-flash", current_model := "gemini-2.0-flash" }).2.current_model
      = "gemini-1.5-flash-latest" ∧
    "gemini-2.0-flash" ∈ GeminiFallbackLLM.get_fallback_models
      (GeminiFallbackLLM.generate geminiCallW
        { primary_model := "gemini-2.0-flash", current_model := "gemini-2.0-flash" }).2.current_model := by
  have h := (claim_C10 geminiCallW
      { primary_model := "gemini-2.0-flash", current_model := "gemini-2.0-flash" }).2.1
      "429 Resource has been exhausted" [] "gemini-1.5-flash-latest"
      ["gemini-1.5-pro-latest", "gemini-pro"] "fallback answer" rfl (by decide)
      (by decide) (fun x hx => absurd hx (List.not_mem_nil x)) rfl
  exact ⟨h.1, h.2 rfl (by decide)⟩

theorem orLoop_ok (req : String → OpenRouterLLM.ReqOutcome)
    (pre : List String) (m : String) (post : List String) (c : String)
    (hpre : ∀ x ∈ pre, OpenRouterLLM.orSucc (req x) = none)
    (hm : OpenRouterLLM.orSucc (req m) = some c) :
    ∀ last, OpenRouterLLM.orLoop req (pre ++ m :: post) last = Except.ok c := by
  induction pre with
  | nil =>
    intro last
    cases hr : req m with
    | exn e =>
      rw [hr] at hm
      exact absurd hm (by simp [OpenRouterLLM.orSucc])
    | resp st t ct =>
      rw [hr] at hm
      simp only [OpenRouterLLM.orSucc] at hm
      by_cases hst : (st == 200) = true
      · rw [if_pos hst] at hm
        have hc : ct = c := by injection hm
        simp only [List.nil_append, OpenRouterLLM.orLoop, hr]
        rw [if_pos hst, hc]
      · rw [if_neg hst] at hm
        exact absurd hm (by simp)
  | cons x xs ih =>
    intro last
    have hx := hpre x (List.mem_cons_self _ _)
    have ih2 := ih (fun y hy => hpre y (List.mem_cons_of_mem _ hy))
    cases hr : req x with
    | exn e =>
      simp only [List.cons_append, OpenRouterLLM.orLoop, hr]
      exact ih2 _
    | resp st t ct =>
      rw [hr] at hx
      simp only [OpenRouterLLM.orSucc] at hx
      by_cases hst : (st == 200) = true
      · rw [if_pos hst] at hx
        exact absurd hx (by simp)
      · simp only [List.cons_append, OpenRouterLLM.orLoop, hr]
        rw [if_neg hst]
        exact ih2 _

theorem orLoop_exhaust (req : String → OpenRouterLLM.ReqOutcome) :
    ∀ (pre : List String) (mlast : String) (last0 : Option String),
    (∀ x ∈ pre ++ [mlast], OpenRouterLLM.orSucc (req x) = none) →
    OpenRouterLLM.orLoop req (pre ++ [mlast]) last0
      = Except.error ("All models failed. Last error: "
          ++ OpenRouterLLM.orFailMsg req mlast) := by
  intro pre
  induction pre with
  | nil =>
    intro mlast last0 hall
    have hm := hall mlast (by simp)
    cases hr : req mlast with
    | exn e =>
      simp [OpenRouterLLM.orLoop, hr, OpenRouterLLM.renderLastError,
        OpenRouterLLM.orFailMsg, OpenRouterLLM.orErrMsg]
    | resp st t ct =>
      rw [hr] at hm
      simp only [OpenRouterLLM.orSucc] at hm
      by_cases hst : (st == 200) = true
      · rw [if_pos hst] at hm
        exact absurd hm (by simp)
      · simp only [List.nil_append, OpenRouterLLM.orLoop, hr]
        rw [if_neg hst]
        simp [OpenRouterLLM.orLoop, OpenRouterLLM.renderLastError,
          OpenRouterLLM.orFailMsg, hr]
  | cons x xs ih =>
    intro mlast last0 hall
    have hx := hall x (List.mem_cons_self _ _)
    have ih2 := ih mlast
    cases hr : req x with
    | exn e =>
      simp only [List.cons_append, OpenRouterLLM.orLoop, hr]
      exact ih2 _ (fun y hy => hall y (List.mem_cons_of_mem _ hy))
    | resp st t ct =>
      rw [hr] at hx
      simp only [OpenRouterLLM.orSucc] at hx
      by_cases hst : (st == 200) = true
      · rw [if_pos hst] at hx
        exact absurd hx (by simp)
      · simp only [List.cons_append, OpenRouterLLM.orLoop, hr]
        rw [if_neg hst]
        exact ih2 _ (fun y hy => hall y (List.mem_cons_of_mem _ hy))

/-- C4: `OpenRouterLLM._generate` tries the primary model and then each
distinct entry of `OPENROUTER_FALLBACK_MODELS` in listed order, returns the
content of the first 200 response, moves on past 429s, other non-200
statuses and request exceptions alike, and raises with the last error only
after the whole sequence fails. -/
theorem claim_C4 (req : String → OpenRouterLLM.ReqOutcome) (primary : String) :
    (OpenRouterLLM.modelsToTry primary
        = primary :: OPENROUTER_FALLBACK_MODELS.filter (fun m => m != primary)) ∧
    (∀ o : OpenRouterLLM.ReqOutcome, OpenRouterLLM.orSucc o = none ↔
       ((∃ e, o = OpenRouterLLM.ReqOutcome.exn e) ∨
        (∃ st t c, o = OpenRouterLLM.ReqOutcome.resp st t c ∧ st ≠ 200))) ∧
    (∀ pre m post c, OpenRouterLLM.modelsToTry primary = pre ++ m :: post →
       (∀ x ∈ pre, OpenRouterLLM.orSucc (req x) = none) →
       OpenRouterLLM.orSucc (req m) = some c →
       OpenRouterLLM.generate req primary = Except.ok c) ∧
    (∀ pre mlast, OpenRouterLLM.modelsToTry primary = pre ++ [mlast] →
       (∀ x ∈ OpenRouterLLM.modelsToTry primary, OpenRouterLLM.orSucc (req x) = none) →
       OpenRouterLLM.generate req primary
         = Except.error ("All models failed. Last error: "
             ++ OpenRouterLLM.orFailMsg req mlast)) := by
  refine ⟨rfl, ?_, ?_, ?_⟩
  · intro o
    cases o with
    | exn e => simp [OpenRouterLLM.orSucc]
    | resp st t ct =>
      simp only [OpenRouterLLM.orSucc]
      by_cases hst : (st == 200) = true
      · rw [if_pos hst]
        simp only [beq_iff_eq] at hst
        simp [hst]
      · rw [if_neg hst]
        simp only [beq_iff_eq] at hst
        simp [hst]
  · intro pre m post c hlist hpre hm
    show OpenRouterLLM.orLoop req (OpenRouterLLM.modelsToTry primary) none = Except.ok c
    rw [hlist]
    exact orLoop_ok req pre m post c hpre hm none
  · intro pre mlast hlist hall
    show OpenRouterLLM.orLoop req (OpenRouterLLM.modelsToTry primary) none = _
    rw [hlist]
    exact orLoop_exhaust req pre mlast none (hlist ▸ hall)

/-- Witness for C4: the rate-limited primary is skipped, the second model in
the sequence answers with status 200. -/
theorem claim_C4_witness :
    OpenRouterLLM.generate orReqW "google/gemini-2.0-flash-exp:free"
      = Except.ok "answer text" := by
  have h := (claim_C4 orReqW "google/gemini-2.0-flash-exp:free").2.2.1
    ["google/gemini-2.0-flash-exp:free"]
    "meta-llama/llama-3.2-3b-instruct:free"
    ["mistralai/mistral-7b-instruct:free", "huggingfaceh4/zephyr-7b-beta:free",
     "openchat/openchat-7b:free"]
    "answer text" (by decide)
    (by
      intro x hx
      rw [List.mem_singleton] at hx
      subst hx
      rfl) rfl
  exact h
